import Mathlib

/-! Fleet state store (`internal/state`).

A shallow embedding of `manager.go` and `model.go`.

* A Go `map[string]*T` is a finite partial function from keys to records; it is
  carried here as `String → Option T`. A write through the pointer held in the
  map is a pointwise update of that function.
* `time.Now()` is an explicit argument of every operation that reads the clock.
* The `error` result is `Option String` (`none` is Go's `nil`), holding the text
  that `fmt.Errorf` builds.
* Every operation runs under the manager's lock from start to end, so each one
  is a single transition of the store; the lock itself is not represented.
-/

namespace State

/-! ## model.go -/

/-- A `time.Time` instant, counted in nanoseconds from Go's zero time. -/
structure Time where
  nsec : Int := 0
deriving DecidableEq

/-- A `float64`, carried by its IEEE-754 bit pattern. The store only moves it around. -/
structure Float64 where
  bits : Nat := 0
deriving DecidableEq

/-- A `float32`, carried by its IEEE-754 bit pattern (bit 31 sign, bits 30..23
exponent, bits 22..0 fraction). -/
structure Float32 where
  bits : Nat := 0
deriving DecidableEq

namespace Float32

/-- Exponent all ones and a non-zero fraction. -/
def isNaN (x : Float32) : Bool :=
  (x.bits / 2 ^ 23) % 256 == 255 && x.bits % 2 ^ 23 != 0

/-- The sign-and-magnitude reading of the 32 bits: IEEE-754 orders two values that
are not NaN exactly as it orders these integers (both zeros read as 0). -/
def key (x : Float32) : Int :=
  if (x.bits / 2 ^ 31) % 2 = 0 then ((x.bits % 2 ^ 31 : Nat) : Int)
  else -((x.bits % 2 ^ 31 : Nat) : Int)

/-- Go's `x >= y` on `float32`: false as soon as one side is NaN. -/
def ge (x y : Float32) : Bool :=
  !x.isNaN && !y.isNaN && decide (y.key ≤ x.key)

end Float32

/-- The Go type `RobotStatus` is a string type. -/
abbrev RobotStatus := String

def StatusUnknown : RobotStatus := "UNKNOWN"
def StatusIdle : RobotStatus := "IDLE"
def StatusAssigned : RobotStatus := "ASSIGNED"
def StatusMovingToPickup : RobotStatus := "MOVING_TO_PICKUP"
def StatusAtPickup : RobotStatus := "AT_PICKUP"
def StatusMovingToDropoff : RobotStatus := "MOVING_TO_DROPOFF"
def StatusAtDropoff : RobotStatus := "AT_DROPOFF"
def StatusReturning : RobotStatus := "RETURNING"
def StatusCharging : RobotStatus := "CHARGING"
def StatusOffline : RobotStatus := "OFFLINE"
def StatusError : RobotStatus := "ERROR"
def StatusMaintenance : RobotStatus := "MAINTENANCE"

/-- Geographic location. Field defaults are Go's zero values. -/
structure Position where
  Latitude : Float64 := {}
  Longitude : Float64 := {}
  Heading : Float64 := {}
  Speed : Float64 := {}
  Timestamp : Time := {}
deriving DecidableEq

/-- Battery status. -/
structure BatteryInfo where
  Level : Float32 := {}
  IsCharging : Bool := false
  Timestamp : Time := {}
deriving DecidableEq

/-- Complete state of a robot. -/
structure RobotState where
  RobotID : String := ""
  Status : RobotStatus := ""
  Position : Position := {}
  Battery : BatteryInfo := {}
  CurrentOrderID : String := ""
  ErrorMessage : String := ""
  LastUpdated : Time := {}
  IsOnline : Bool := false
deriving DecidableEq

/-- An active delivery order. -/
structure OrderState where
  OrderID : String := ""
  AssignedRobot : String := ""
  PickupLocation : Position := {}
  DropoffLocation : Position := {}
  Status : String := ""
  CreatedAt : Time := {}
  UpdatedAt : Time := {}
deriving DecidableEq

/-! ## manager.go -/

/-- The two registries of the manager. -/
structure Manager where
  robots : String → Option RobotState
  orders : String → Option OrderState

/-- Go's `error`: `none` is `nil`. -/
abbrev Error := Option String

/-- `m.robots[robotID] = robot`, and equally a write through the pointer stored there. -/
def Manager.setRobot (m : Manager) (robotID : String) (robot : RobotState) : Manager :=
  { m with robots := Function.update m.robots robotID (some robot) }

/-- `m.orders[orderID] = order`, and equally a write through the pointer stored there. -/
def Manager.setOrder (m : Manager) (orderID : String) (order : OrderState) : Manager :=
  { m with orders := Function.update m.orders orderID (some order) }

def NewManager : Manager :=
  { robots := fun _ => none, orders := fun _ => none }

def UpdatePosition (m : Manager) (robotID : String) (lat lon heading speed : Float64)
    (timestamp now : Time) : Error × Manager :=
  let robot : RobotState :=
    match m.robots robotID with
    | some robot => robot
    | none => { RobotID := robotID, Status := StatusUnknown, IsOnline := true }
  let robot := { robot with
    Position := { Latitude := lat, Longitude := lon, Heading := heading, Speed := speed,
                  Timestamp := timestamp } }
  let robot := { robot with LastUpdated := now }
  let robot := { robot with IsOnline := true }
  (none, m.setRobot robotID robot)

def UpdateBattery (m : Manager) (robotID : String) (level : Float32) (isCharging : Bool)
    (timestamp now : Time) : Error × Manager :=
  let robot : RobotState :=
    match m.robots robotID with
    | some robot => robot
    | none => { RobotID := robotID, Status := StatusUnknown, IsOnline := true }
  let robot := { robot with
    Battery := { Level := level, IsCharging := isCharging, Timestamp := timestamp } }
  let robot := { robot with LastUpdated := now }
  let robot := { robot with IsOnline := true }
  (none, m.setRobot robotID robot)

def UpdateStatus (m : Manager) (robotID : String) (status : RobotStatus)
    (currentOrderID errorMessage : String) (timestamp now : Time) : Error × Manager :=
  let _ := timestamp
  let robot : RobotState :=
    match m.robots robotID with
    | some robot => robot
    | none => { RobotID := robotID, IsOnline := true }
  let robot := { robot with Status := status }
  let robot := { robot with CurrentOrderID := currentOrderID }
  let robot := { robot with ErrorMessage := errorMessage }
  let robot := { robot with LastUpdated := now }
  let robot := { robot with IsOnline := true }
  (none, m.setRobot robotID robot)

/-- The record returned is a copy, so it is a value; the store is handed back as it was read. -/
def GetRobotState (m : Manager) (robotID : String) : (Option RobotState × Error) × Manager :=
  match m.robots robotID with
  | none => ((none, some ("robot " ++ robotID ++ " not found")), m)
  | some robot => ((some robot, none), m)

/-- The copy of the registry is the registry as a value; the store is handed back as read. -/
def GetAllRobots (m : Manager) : (String → Option RobotState) × Manager :=
  (m.robots, m)

/-- The condition of the `if` in the loop of `GetAvailableRobots`. -/
def passes (minBattery : Float32) (robot : RobotState) : Bool :=
  robot.Status == StatusIdle &&
    robot.Battery.Level.ge minBattery &&
    robot.IsOnline &&
    !robot.Battery.IsCharging

/-- The body of the loop of `GetAvailableRobots` for one map entry: append a copy. -/
def availableStep (minBattery : Float32) (available : List RobotState) (robot : RobotState) :
    List RobotState :=
  if passes minBattery robot then available ++ [robot] else available

/-- The loop `for _, robot := range m.robots`. Go does not fix the order in which `range`
visits a map, so the order is the argument `visit`: the keys of `m.robots`, each once.
A key of `visit` that the map does not hold yields no entry. -/
def GetAvailableRobots (m : Manager) (visit : List String) (minBattery : Float32) :
    List RobotState × Manager :=
  ((visit.filterMap m.robots).foldl (availableStep minBattery) [], m)

/-- What `range m.robots` may produce: every key of the map, once. -/
def Manager.RangeOrder (m : Manager) (visit : List String) : Prop :=
  visit.Nodup ∧ ∀ k, k ∈ visit ↔ (m.robots k).isSome = true

def MarkRobotOffline (m : Manager) (robotID : String) (now : Time) : Error × Manager :=
  match m.robots robotID with
  | none => (some ("robot " ++ robotID ++ " not found"), m)
  | some robot =>
    let robot := { robot with IsOnline := false }
    let robot := { robot with Status := StatusOffline }
    let robot := { robot with LastUpdated := now }
    (none, m.setRobot robotID robot)

def CreateOrder (m : Manager) (orderID : String)
    (pickupLat pickupLon dropoffLat dropoffLon : Float64) (now : Time) : Error × Manager :=
  match m.orders orderID with
  | some _ => (some ("order " ++ orderID ++ " already exists"), m)
  | none =>
    (none, m.setOrder orderID
      { OrderID := orderID,
        PickupLocation := { Latitude := pickupLat, Longitude := pickupLon, Timestamp := now },
        DropoffLocation := { Latitude := dropoffLat, Longitude := dropoffLon, Timestamp := now },
        Status := "pending",
        CreatedAt := now,
        UpdatedAt := now })

/-- The clock is read twice: `now1` stamps the order, `now2` the robot. -/
def AssignOrderToRobot (m : Manager) (orderID robotID : String) (now1 now2 : Time) :
    Error × Manager :=
  match m.orders orderID with
  | none => (some ("order " ++ orderID ++ " not found"), m)
  | some order =>
    match m.robots robotID with
    | none => (some ("robot " ++ robotID ++ " not found"), m)
    | some robot =>
      let order := { order with AssignedRobot := robotID }
      let order := { order with Status := "assigned" }
      let order := { order with UpdatedAt := now1 }
      let robot := { robot with CurrentOrderID := orderID }
      let robot := { robot with Status := StatusAssigned }
      let robot := { robot with LastUpdated := now2 }
      (none, (m.setOrder orderID order).setRobot robotID robot)

/-! ## Sequences of store operations -/

/-- One call of a mutating store operation, with its arguments and clock readings. -/
inductive Op where
  | updatePosition (robotID : String) (lat lon heading speed : Float64) (timestamp now : Time)
  | updateBattery (robotID : String) (level : Float32) (isCharging : Bool) (timestamp now : Time)
  | updateStatus (robotID : String) (status : RobotStatus) (currentOrderID errorMessage : String)
      (timestamp now : Time)
  | markRobotOffline (robotID : String) (now : Time)
  | createOrder (orderID : String) (pickupLat pickupLon dropoffLat dropoffLon : Float64)
      (now : Time)
  | assignOrderToRobot (orderID robotID : String) (now1 now2 : Time)

/-- Run one call. -/
def Op.call (m : Manager) : Op → Error × Manager
  | .updatePosition robotID lat lon heading speed timestamp now =>
    UpdatePosition m robotID lat lon heading speed timestamp now
  | .updateBattery robotID level isCharging timestamp now =>
    UpdateBattery m robotID level isCharging timestamp now
  | .updateStatus robotID status currentOrderID errorMessage timestamp now =>
    UpdateStatus m robotID status currentOrderID errorMessage timestamp now
  | .markRobotOffline robotID now => MarkRobotOffline m robotID now
  | .createOrder orderID pickupLat pickupLon dropoffLat dropoffLon now =>
    CreateOrder m orderID pickupLat pickupLon dropoffLat dropoffLon now
  | .assignOrderToRobot orderID robotID now1 now2 => AssignOrderToRobot m orderID robotID now1 now2

/-- The store after a sequence of calls, whatever each call returned. -/
def run (m : Manager) (ops : List Op) : Manager :=
  ops.foldl (fun s op => (op.call s).2) m

/-- The call is an `UpdatePosition`, `UpdateBattery` or `UpdateStatus` for robot `id`. -/
def Op.reports (id : String) : Op → Bool
  | .updatePosition robotID _ _ _ _ _ _ => robotID == id
  | .updateBattery robotID _ _ _ _ => robotID == id
  | .updateStatus robotID _ _ _ _ _ => robotID == id
  | .markRobotOffline _ _ => false
  | .createOrder _ _ _ _ _ _ => false
  | .assignOrderToRobot _ _ _ _ => false

/-- The filter of `GetAvailableRobots` as the specification words it. -/
def Available (minBattery : Float32) (robot : RobotState) : Prop :=
  robot.Status = StatusIdle ∧ robot.IsOnline = true ∧ robot.Battery.IsCharging = false ∧
    robot.Battery.Level.ge minBattery = true

/-- A fleet of three idle robots: A at 80 %, B at 40 %, C at 90 % and charging
(0x42A00000, 0x42200000 and 0x42B40000 are 80, 40 and 90 as `float32`). -/
def fleetABC : Manager :=
  run NewManager
    [ .updateStatus "A" StatusIdle "" "" {} {},
      .updateBattery "A" ⟨0x42A00000⟩ false {} {},
      .updateStatus "B" StatusIdle "" "" {} {},
      .updateBattery "B" ⟨0x42200000⟩ false {} {},
      .updateStatus "C" StatusIdle "" "" {} {},
      .updateBattery "C" ⟨0x42B40000⟩ true {} {} ]

/-- The agreement of the back-references: an order whose status is "assigned" names a robot
whose `CurrentOrderID` is that order's id, and a robot whose `CurrentOrderID` is the id of an
existing order is that order's `AssignedRobot`. -/
def BackRefsAgree (m : Manager) : Prop :=
  (∀ o order, m.orders o = some order → order.Status = "assigned" →
    ∃ robot, m.robots order.AssignedRobot = some robot ∧ robot.CurrentOrderID = o) ∧
  (∀ r robot, m.robots r = some robot →
    ∀ order, m.orders robot.CurrentOrderID = some order → order.AssignedRobot = r)

/-- The discipline under which callers keep the back-references paired: a status report
re-submits the order id the robot already has (the empty one for a robot not seen before), an
order is created under a non-empty id, and an assignment that finds both sides takes a pending
order and a robot without current order. The other calls are free. -/
def Op.keepsPairing (m : Manager) : Op → Prop
  | .updateStatus robotID _ currentOrderID _ _ _ =>
    currentOrderID = (match m.robots robotID with
      | some robot => robot.CurrentOrderID
      | none => "")
  | .createOrder orderID _ _ _ _ _ => orderID ≠ ""
  | .assignOrderToRobot orderID robotID _ _ =>
    ∀ order robot, m.orders orderID = some order → m.robots robotID = some robot →
      order.Status = "pending" ∧ robot.CurrentOrderID = ""
  | _ => True

/-- Every call of the sequence keeps the discipline in the store it is applied to. -/
def pairingKept (m : Manager) : List Op → Prop
  | [] => True
  | op :: ops => op.keepsPairing m ∧ pairingKept (op.call m).2 ops

/-- The pairing as it is maintained call by call: no order has the empty id, a robot with a
non-empty `CurrentOrderID` is the `AssignedRobot` of that order, which exists and is assigned,
and an assigned order names a robot whose `CurrentOrderID` is its id. -/
def Paired (m : Manager) : Prop :=
  m.orders "" = none ∧
  (∀ r robot, m.robots r = some robot → robot.CurrentOrderID ≠ "" →
    ∃ order, m.orders robot.CurrentOrderID = some order ∧ order.Status = "assigned" ∧
      order.AssignedRobot = r) ∧
  (∀ o order, m.orders o = some order → order.Status = "assigned" →
    ∃ robot, m.robots order.AssignedRobot = some robot ∧ robot.CurrentOrderID = o)

/-! ## robot_handler.go -/

/-- The function `time.UnixMilli`: the instant `msec` milliseconds after the Unix epoch, which
lies 62135596800 seconds after Go's zero time. -/
def UnixMilli (msec : Int) : Time :=
  ⟨62135596800 * 1000000000 + msec * 1000000⟩

/-- The method `Time.UnixMilli`: whole milliseconds since the Unix epoch, rounded down. -/
def Time.UnixMilli (t : Time) : Int :=
  (t.nsec - 62135596800 * 1000000000) / 1000000

/-- Modelled from the spec: the generated enumeration `pb.RobotStatus` is not among the sources.
It is an `int32` with one constant `pb.RobotStatus_X` for the external UNKNOWN and for each of
the eleven named values; the numbers behind the constants are the fields of this record. -/
structure RobotStatusValues where
  UNKNOWN : Int
  IDLE : Int
  ASSIGNED : Int
  MOVING_TO_PICKUP : Int
  AT_PICKUP : Int
  MOVING_TO_DROPOFF : Int
  AT_DROPOFF : Int
  RETURNING : Int
  CHARGING : Int
  OFFLINE : Int
  ERROR : Int
  MAINTENANCE : Int

/-- The eleven named constants, in the order of the `switch`. -/
def RobotStatusValues.named (pb : RobotStatusValues) : List Int :=
  [pb.IDLE, pb.ASSIGNED, pb.MOVING_TO_PICKUP, pb.AT_PICKUP, pb.MOVING_TO_DROPOFF, pb.AT_DROPOFF,
   pb.RETURNING, pb.CHARGING, pb.OFFLINE, pb.ERROR, pb.MAINTENANCE]

/-- The twelve constants of an enumeration are twelve different numbers (Go also refuses a
`switch` that lists one constant twice). -/
def RobotStatusValues.Distinct (pb : RobotStatusValues) : Prop :=
  (pb.UNKNOWN :: pb.named).Nodup

/-- The customary numbering of a generated enumeration: 0 for UNKNOWN, then 1 to 11. -/
def pbDefault : RobotStatusValues :=
  { UNKNOWN := 0, IDLE := 1, ASSIGNED := 2, MOVING_TO_PICKUP := 3, AT_PICKUP := 4,
    MOVING_TO_DROPOFF := 5, AT_DROPOFF := 6, RETURNING := 7, CHARGING := 8, OFFLINE := 9,
    ERROR := 10, MAINTENANCE := 11 }

/-- Modelled from the spec: the generated message `pb.PositionUpdate` is not among the sources;
its fields are those the handler reads. -/
structure PositionUpdate where
  RobotId : String := ""
  Latitude : Float64 := {}
  Longitude : Float64 := {}
  Heading : Float64 := {}
  Speed : Float64 := {}
  Timestamp : Int := 0
deriving DecidableEq

/-- Modelled from the spec: the generated message `pb.BatteryUpdate` is not among the sources;
its fields are those the handler reads. -/
structure BatteryUpdate where
  RobotId : String := ""
  BatteryLevel : Float32 := {}
  IsCharging : Bool := false
  Timestamp : Int := 0
deriving DecidableEq

/-- Modelled from the spec: the generated message `pb.StatusUpdate` is not among the sources;
its fields are those the handler reads. `Status` is the `int32` of `pb.RobotStatus`. -/
structure StatusUpdate where
  RobotId : String := ""
  Status : Int := 0
  CurrentOrderId : String := ""
  ErrorMessage : String := ""
  Timestamp : Int := 0
deriving DecidableEq

/-- Modelled from the spec: the generated messages `pb.PositionAck`, `pb.BatteryAck` and
`pb.StatusAck` are not among the sources; all three have these two fields. -/
structure Ack where
  Success : Bool := false
  Message : String := ""
deriving DecidableEq

abbrev PositionAck := Ack
abbrev BatteryAck := Ack
abbrev StatusAck := Ack

/-- Modelled from the spec: the generated message `pb.UpdateAck` is not among the sources. -/
structure UpdateAck where
  Success : Bool := false
  Message : String := ""
  Timestamp : Int := 0
deriving DecidableEq

/-- Modelled from the spec: the generated oneof `RobotUpdate.Update` is not among the sources.
It holds one of the three wrappers the `switch` names, or anything else (`unset`). -/
inductive RobotUpdate_Update where
  | Position (Position : PositionUpdate)
  | Battery (Battery : BatteryUpdate)
  | Status (Status : StatusUpdate)
  | unset
deriving DecidableEq

/-- Modelled from the spec: the generated envelope `pb.RobotUpdate` is not among the sources. -/
structure RobotUpdate where
  Update : RobotUpdate_Update := .unset
deriving DecidableEq

/-- The handler holds the pointer to the one store; the store it points to is carried along. -/
structure RobotHandler where
  stateManager : Manager

def NewRobotHandler (stateManager : Manager) : RobotHandler :=
  { stateManager := stateManager }

/-- The `switch` tries its cases from the top. -/
def convertProtoStatus (pb : RobotStatusValues) (protoStatus : Int) : RobotStatus :=
  if protoStatus = pb.IDLE then StatusIdle
  else if protoStatus = pb.ASSIGNED then StatusAssigned
  else if protoStatus = pb.MOVING_TO_PICKUP then StatusMovingToPickup
  else if protoStatus = pb.AT_PICKUP then StatusAtPickup
  else if protoStatus = pb.MOVING_TO_DROPOFF then StatusMovingToDropoff
  else if protoStatus = pb.AT_DROPOFF then StatusAtDropoff
  else if protoStatus = pb.RETURNING then StatusReturning
  else if protoStatus = pb.CHARGING then StatusCharging
  else if protoStatus = pb.OFFLINE then StatusOffline
  else if protoStatus = pb.ERROR then StatusError
  else if protoStatus = pb.MAINTENANCE then StatusMaintenance
  else StatusUnknown

/-- The unary handler for position reports. The second component of the answer is the
transport error; `now` is the clock reading of the store. Logging is left out. -/
def RobotHandler.UpdatePosition (h : RobotHandler) (req : PositionUpdate) (now : Time) :
    (PositionAck × Error) × RobotHandler :=
  let timestamp := UnixMilli req.Timestamp
  let res := State.UpdatePosition h.stateManager req.RobotId req.Latitude req.Longitude
    req.Heading req.Speed timestamp now
  match res.1 with
  | some err =>
    (({ Success := false, Message := "Failed to update position: " ++ err }, none),
      { stateManager := res.2 })
  | none =>
    (({ Success := true, Message := "Position updated successfully" }, none),
      { stateManager := res.2 })

/-- The unary handler for battery reports. -/
def RobotHandler.UpdateBattery (h : RobotHandler) (req : BatteryUpdate) (now : Time) :
    (BatteryAck × Error) × RobotHandler :=
  let timestamp := UnixMilli req.Timestamp
  let res := State.UpdateBattery h.stateManager req.RobotId req.BatteryLevel req.IsCharging
    timestamp now
  match res.1 with
  | some err =>
    (({ Success := false, Message := "Failed to update battery: " ++ err }, none),
      { stateManager := res.2 })
  | none =>
    (({ Success := true, Message := "Battery updated successfully" }, none),
      { stateManager := res.2 })

/-- The unary handler for status reports. -/
def RobotHandler.UpdateStatus (pb : RobotStatusValues) (h : RobotHandler) (req : StatusUpdate)
    (now : Time) : (StatusAck × Error) × RobotHandler :=
  let status := convertProtoStatus pb req.Status
  let timestamp := UnixMilli req.Timestamp
  let res := State.UpdateStatus h.stateManager req.RobotId status req.CurrentOrderId
    req.ErrorMessage timestamp now
  match res.1 with
  | some err =>
    (({ Success := false, Message := "Failed to update status: " ++ err }, none),
      { stateManager := res.2 })
  | none =>
    (({ Success := true, Message := "Status updated successfully" }, none),
      { stateManager := res.2 })

/-- One turn of the loop of `StreamUpdates` as the surroundings drive it: the envelope that
`stream.Recv` returns, the clock reading of the store, the clock reading taken for the
acknowledgment, and what `stream.Send` returns. -/
structure Turn where
  update : RobotUpdate
  now : Time := {}
  ackNow : Time := {}
  send : Error := none

/-- The `switch` on the variant: the acknowledgment built and the handler afterwards. -/
def dispatch (pb : RobotStatusValues) (h : RobotHandler) (t : Turn) : UpdateAck × RobotHandler :=
  match t.update.Update with
  | .Position u =>
    let res := h.UpdatePosition u t.now
    let ack : UpdateAck :=
      { Success := res.1.1.Success, Message := res.1.1.Message, Timestamp := t.ackNow.UnixMilli }
    match res.1.2 with
    | some err =>
      ({ ack with Success := false, Message := "Position update failed: " ++ err }, res.2)
    | none => (ack, res.2)
  | .Battery u =>
    let res := h.UpdateBattery u t.now
    let ack : UpdateAck :=
      { Success := res.1.1.Success, Message := res.1.1.Message, Timestamp := t.ackNow.UnixMilli }
    match res.1.2 with
    | some err =>
      ({ ack with Success := false, Message := "Battery update failed: " ++ err }, res.2)
    | none => (ack, res.2)
  | .Status u =>
    let res := RobotHandler.UpdateStatus pb h u t.now
    let ack : UpdateAck :=
      { Success := res.1.1.Success, Message := res.1.1.Message, Timestamp := t.ackNow.UnixMilli }
    match res.1.2 with
    | some err =>
      ({ ack with Success := false, Message := "Status update failed: " ++ err }, res.2)
    | none => (ack, res.2)
  | .unset =>
    ({ Success := false, Message := "Unknown update type", Timestamp := t.ackNow.UnixMilli }, h)

/-- The loop of `StreamUpdates` on a stream that delivers the envelopes of `turns` and then
ends: with `io.EOF` when `last` is `none`, with a receive error otherwise. The result is the
error returned, the acknowledgments that `stream.Send` accepted, in order, and the handler
afterwards. `sent` holds the acknowledgments of the earlier turns. -/
def streamLoop (pb : RobotStatusValues) (last : Error) :
    RobotHandler → List UpdateAck → List Turn → (Error × List UpdateAck) × RobotHandler
  | h, sent, [] => ((last, sent), h)
  | h, sent, t :: turns =>
    let res := dispatch pb h t
    match t.send with
    | some err => ((some err, sent), res.2)
    | none => streamLoop pb last res.2 (sent ++ [res.1]) turns

def RobotHandler.StreamUpdates (pb : RobotStatusValues) (h : RobotHandler) (turns : List Turn)
    (last : Error) : (Error × List UpdateAck) × RobotHandler :=
  streamLoop pb last h [] turns

/-- The store call the specification attaches to an envelope: the update of its variant with
the decoded timestamp, none for an envelope of no known variant. -/
def Turn.storeCall (pb : RobotStatusValues) (t : Turn) : Option Op :=
  match t.update.Update with
  | .Position u =>
    some (.updatePosition u.RobotId u.Latitude u.Longitude u.Heading u.Speed
      (UnixMilli u.Timestamp) t.now)
  | .Battery u =>
    some (.updateBattery u.RobotId u.BatteryLevel u.IsCharging (UnixMilli u.Timestamp) t.now)
  | .Status u =>
    some (.updateStatus u.RobotId (convertProtoStatus pb u.Status) u.CurrentOrderId
      u.ErrorMessage (UnixMilli u.Timestamp) t.now)
  | .unset => none

/-- The acknowledgment the specification attaches to an envelope: a refusal with the text
"Unknown update type" for an envelope of no known variant, otherwise a success with the fixed
text of the variant; stamped with the send time. -/
def Turn.expectedAck (t : Turn) : UpdateAck :=
  match t.update.Update with
  | .Position _ =>
    { Success := true, Message := "Position updated successfully",
      Timestamp := t.ackNow.UnixMilli }
  | .Battery _ =>
    { Success := true, Message := "Battery updated successfully",
      Timestamp := t.ackNow.UnixMilli }
  | .Status _ =>
    { Success := true, Message := "Status updated successfully",
      Timestamp := t.ackNow.UnixMilli }
  | .unset =>
    { Success := false, Message := "Unknown update type", Timestamp := t.ackNow.UnixMilli }

/-- The exchange of the specification's streaming scenario: a position report for "r1" at
(1, 2), an envelope of no known variant, a battery report for "r1" at 77 %
(0x3FF0000000000000 and 0x4000000000000000 are 1 and 2 as `float64`, 0x429A0000 is 77 as
`float32`). -/
def scenarioTurns : List Turn :=
  [ { update := { Update := .Position { RobotId := "r1", Latitude := ⟨0x3FF0000000000000⟩,
                                        Longitude := ⟨0x4000000000000000⟩, Timestamp := 1000 } },
      now := UnixMilli 1001, ackNow := UnixMilli 1002 },
    { update := { Update := .unset }, now := UnixMilli 2001, ackNow := UnixMilli 2002 },
    { update := { Update := .Battery { RobotId := "r1", BatteryLevel := ⟨0x429A0000⟩,
                                       IsCharging := false, Timestamp := 3000 } },
      now := UnixMilli 3001, ackNow := UnixMilli 3002 } ]

/-! ## Notions used by the relational properties -/

/-- The robot an update call is for: defined for `UpdatePosition`, `UpdateBattery`,
`UpdateStatus` and `MarkRobotOffline`. -/
def Op.robotOf : Op → Option String
  | .updatePosition robotID _ _ _ _ _ _ => some robotID
  | .updateBattery robotID _ _ _ _ => some robotID
  | .updateStatus robotID _ _ _ _ _ => some robotID
  | .markRobotOffline robotID _ => some robotID
  | .createOrder _ _ _ _ _ _ => none
  | .assignOrderToRobot _ _ _ _ => none

/-- The reading of "set exactly once": in a store reached from the empty store, an order with
a non-empty `AssignedRobot` keeps that `AssignedRobot` through any further call. -/
def AssignedRobotFixed : Prop :=
  ∀ (ops : List Op) (o : String) (order : OrderState),
    (run NewManager ops).orders o = some order → order.AssignedRobot ≠ "" →
    ∀ (op : Op) (order' : OrderState), (op.call (run NewManager ops)).2.orders o = some order' →
      order'.AssignedRobot = order.AssignedRobot

/-- Two stores that differ at most in the `LastUpdated` of their robot records. -/
def Manager.SameModLastUpdated (m1 m2 : Manager) : Prop :=
  m1.orders = m2.orders ∧
  ∀ k, (m1.robots k).map (fun robot => { robot with LastUpdated := {} }) =
    (m2.robots k).map (fun robot => { robot with LastUpdated := {} })

/-- Referential integrity of the two registries. -/
def Integrity (m : Manager) : Prop :=
  (∀ o order, m.orders o = some order →
    (order.Status = "pending" ∨ order.Status = "assigned") ∧
    (order.Status = "pending" → order.AssignedRobot = "") ∧
    (order.Status = "assigned" → m.robots order.AssignedRobot ≠ none) ∧
    order.OrderID = o) ∧
  (∀ r robot, m.robots r = some robot → robot.RobotID = r)

/-! ## Reading the two registries after a write -/

@[simp] theorem setRobot_robots_same (m : Manager) (k : String) (v : RobotState) :
    (m.setRobot k v).robots k = some v := by
  simp [Manager.setRobot]

@[simp] theorem setRobot_robots_other (m : Manager) (k j : String) (v : RobotState)
    (h : j ≠ k) : (m.setRobot k v).robots j = m.robots j := by
  simp [Manager.setRobot, Function.update, h]

@[simp] theorem setRobot_orders (m : Manager) (k : String) (v : RobotState) :
    (m.setRobot k v).orders = m.orders := rfl

@[simp] theorem setOrder_orders_same (m : Manager) (k : String) (v : OrderState) :
    (m.setOrder k v).orders k = some v := by
  simp [Manager.setOrder]

@[simp] theorem setOrder_orders_other (m : Manager) (k j : String) (v : OrderState)
    (h : j ≠ k) : (m.setOrder k v).orders j = m.orders j := by
  simp [Manager.setOrder, Function.update, h]

@[simp] theorem setOrder_robots (m : Manager) (k : String) (v : OrderState) :
    (m.setOrder k v).robots = m.robots := rfl

/-- The two "not found" texts differ, whatever the identifiers. -/
theorem order_text_ne_robot_text (a b : String) :
    "order " ++ a ++ " not found" ≠ "robot " ++ b ++ " not found" := by
  intro h
  have h2 := congrArg String.data h
  simp [String.data_append] at h2

/-! ## AssignOrderToRobot -/

/-- C2: when order `o` and robot `r` both exist, `AssignOrderToRobot` returns no error; afterwards
the robot record has `CurrentOrderID = o` and `Status = Assigned`, the order record has
`AssignedRobot = r` and `Status = "assigned"`; the robot's id, position, battery, error message
and online flag, the order's id, pickup, dropoff and creation time, and every other robot and
order are as before. -/
theorem assignOrderToRobot_both_exist (m : Manager) (o r : String) (now1 now2 : Time)
    (order : OrderState) (robot : RobotState)
    (ho : m.orders o = some order) (hr : m.robots r = some robot) :
    (AssignOrderToRobot m o r now1 now2).1 = none ∧
    ∃ robot' order',
      (AssignOrderToRobot m o r now1 now2).2.robots r = some robot' ∧
      (AssignOrderToRobot m o r now1 now2).2.orders o = some order' ∧
      robot'.CurrentOrderID = o ∧ robot'.Status = StatusAssigned ∧
      order'.AssignedRobot = r ∧ order'.Status = "assigned" ∧
      robot'.RobotID = robot.RobotID ∧ robot'.Position = robot.Position ∧
      robot'.Battery = robot.Battery ∧ robot'.ErrorMessage = robot.ErrorMessage ∧
      robot'.IsOnline = robot.IsOnline ∧
      order'.OrderID = order.OrderID ∧ order'.PickupLocation = order.PickupLocation ∧
      order'.DropoffLocation = order.DropoffLocation ∧ order'.CreatedAt = order.CreatedAt ∧
      (∀ k, k ≠ r → (AssignOrderToRobot m o r now1 now2).2.robots k = m.robots k) ∧
      (∀ k, k ≠ o → (AssignOrderToRobot m o r now1 now2).2.orders k = m.orders k) := by
  have hres : AssignOrderToRobot m o r now1 now2 =
      (none, (m.setOrder o
          { order with AssignedRobot := r, Status := "assigned", UpdatedAt := now1 }).setRobot r
        { robot with CurrentOrderID := o, Status := StatusAssigned, LastUpdated := now2 }) := by
    simp [AssignOrderToRobot, ho, hr]
  rw [hres]
  refine ⟨rfl, { robot with CurrentOrderID := o, Status := StatusAssigned, LastUpdated := now2 },
    { order with AssignedRobot := r, Status := "assigned", UpdatedAt := now1 },
    setRobot_robots_same _ _ _, ?_, rfl, rfl, rfl, rfl, rfl, rfl, rfl, rfl, rfl,
    rfl, rfl, rfl, rfl, ?_, ?_⟩
  · simp
  · intro k hk
    simp [hk]
  · intro k hk
    simp [hk]

/-- Evidence that C2 applies: order "o1" and robot "r1" exist after one `CreateOrder` and one
`UpdatePosition`. -/
theorem assignOrderToRobot_both_exist_witness :
    (AssignOrderToRobot
      (run NewManager [.createOrder "o1" {} {} {} {} {}, .updatePosition "r1" {} {} {} {} {} {}])
      "o1" "r1" {} {}).1 = none ∧
    ∃ robot' order',
      (AssignOrderToRobot
        (run NewManager [.createOrder "o1" {} {} {} {} {}, .updatePosition "r1" {} {} {} {} {} {}])
        "o1" "r1" {} {}).2.robots "r1" = some robot' ∧
      (AssignOrderToRobot
        (run NewManager [.createOrder "o1" {} {} {} {} {}, .updatePosition "r1" {} {} {} {} {} {}])
        "o1" "r1" {} {}).2.orders "o1" = some order' ∧
      robot'.CurrentOrderID = "o1" ∧ robot'.Status = StatusAssigned ∧
      order'.AssignedRobot = "r1" ∧ order'.Status = "assigned" :=
  have h := assignOrderToRobot_both_exist
    (run NewManager [.createOrder "o1" {} {} {} {} {}, .updatePosition "r1" {} {} {} {} {} {}])
    "o1" "r1" {} {}
    { OrderID := "o1", Status := "pending" }
    { RobotID := "r1", Status := StatusUnknown, IsOnline := true }
    (by simp [run, Op.call, CreateOrder, UpdatePosition, NewManager])
    (by simp [run, Op.call, CreateOrder, UpdatePosition, NewManager])
  ⟨h.1, h.2.imp fun _ h1 => h1.imp fun _ h2 => ⟨h2.1, h2.2.1, h2.2.2.1, h2.2.2.2.1, h2.2.2.2.2.1,
    h2.2.2.2.2.2.1⟩⟩

/-- C3: `AssignOrderToRobot` returns "order … not found" exactly when the order is absent,
"robot … not found" exactly when the order is present and the robot absent, hence some error
exactly when one of the two is absent; and whenever it returns an error the store it leaves is
the store it was given. -/
theorem assignOrderToRobot_error (m : Manager) (o r : String) (now1 now2 : Time) :
    ((AssignOrderToRobot m o r now1 now2).1 = some ("order " ++ o ++ " not found") ↔
      m.orders o = none) ∧
    ((AssignOrderToRobot m o r now1 now2).1 = some ("robot " ++ r ++ " not found") ↔
      (m.orders o ≠ none ∧ m.robots r = none)) ∧
    ((AssignOrderToRobot m o r now1 now2).1 ≠ none ↔ (m.orders o = none ∨ m.robots r = none)) ∧
    ((AssignOrderToRobot m o r now1 now2).1 ≠ none →
      (AssignOrderToRobot m o r now1 now2).2 = m) := by
  unfold AssignOrderToRobot
  cases ho : m.orders o with
  | none => simpa using order_text_ne_robot_text o r
  | some order =>
    cases hr : m.robots r with
    | none => simpa using (order_text_ne_robot_text o r).symm
    | some robot => simp

/-! ## CreateOrder -/

/-- C4: `CreateOrder` returns "order … already exists" exactly when the id is already present and
no error exactly when it is absent. With the id present the store is returned as it was. With the
id absent the new store holds at that id a pending order with no assigned robot and the given
pickup and dropoff coordinates, every other order is as before, and the robot registry is as
before in both cases. A second `CreateOrder` for the same id, whatever its coordinates, returns
the error and leaves the store (so the first order's fields) as the first call left it. -/
theorem createOrder_contract (m : Manager) (id : String) (pLat pLon dLat dLon : Float64)
    (now : Time) :
    ((CreateOrder m id pLat pLon dLat dLon now).1 = some ("order " ++ id ++ " already exists") ↔
      m.orders id ≠ none) ∧
    ((CreateOrder m id pLat pLon dLat dLon now).1 = none ↔ m.orders id = none) ∧
    (m.orders id ≠ none → (CreateOrder m id pLat pLon dLat dLon now).2 = m) ∧
    (m.orders id = none →
      (CreateOrder m id pLat pLon dLat dLon now).2.orders id = some
        { OrderID := id, AssignedRobot := "",
          PickupLocation := { Latitude := pLat, Longitude := pLon, Heading := {}, Speed := {},
                              Timestamp := now },
          DropoffLocation := { Latitude := dLat, Longitude := dLon, Heading := {}, Speed := {},
                               Timestamp := now },
          Status := "pending", CreatedAt := now, UpdatedAt := now } ∧
      ∀ k, k ≠ id → (CreateOrder m id pLat pLon dLat dLon now).2.orders k = m.orders k) ∧
    (CreateOrder m id pLat pLon dLat dLon now).2.robots = m.robots ∧
    (∀ (a b c d : Float64) (t : Time),
      CreateOrder (CreateOrder m id pLat pLon dLat dLon now).2 id a b c d t =
        (some ("order " ++ id ++ " already exists"),
          (CreateOrder m id pLat pLon dLat dLon now).2)) := by
  unfold CreateOrder
  cases ho : m.orders id with
  | none =>
    refine ⟨by simp, by simp, by simp, fun _ => ⟨by simp, ?_⟩, by simp, ?_⟩
    · intro k hk
      simp [hk]
    · intro a b c d t
      simp
  | some order =>
    refine ⟨by simp, by simp, by simp, by simp, by simp, ?_⟩
    intro a b c d t
    simp [ho]

/-- Evidence for C4 on the empty store: the first `CreateOrder "o1"` succeeds and stores the
pending order, the second one with other coordinates is refused and changes nothing. -/
theorem createOrder_contract_witness :
    (CreateOrder NewManager "o1" ⟨1⟩ ⟨2⟩ ⟨3⟩ ⟨4⟩ ⟨5⟩).2.orders "o1" = some
        { OrderID := "o1", AssignedRobot := "",
          PickupLocation := { Latitude := ⟨1⟩, Longitude := ⟨2⟩, Timestamp := ⟨5⟩ },
          DropoffLocation := { Latitude := ⟨3⟩, Longitude := ⟨4⟩, Timestamp := ⟨5⟩ },
          Status := "pending", CreatedAt := ⟨5⟩, UpdatedAt := ⟨5⟩ } ∧
    (CreateOrder (CreateOrder NewManager "o1" ⟨1⟩ ⟨2⟩ ⟨3⟩ ⟨4⟩ ⟨5⟩).2 "o1" ⟨9⟩ ⟨8⟩ ⟨7⟩ ⟨6⟩ ⟨10⟩).2 =
      (CreateOrder NewManager "o1" ⟨1⟩ ⟨2⟩ ⟨3⟩ ⟨4⟩ ⟨5⟩).2 :=
  ⟨((createOrder_contract NewManager "o1" ⟨1⟩ ⟨2⟩ ⟨3⟩ ⟨4⟩ ⟨5⟩).2.2.2.1 rfl).1,
   (createOrder_contract (CreateOrder NewManager "o1" ⟨1⟩ ⟨2⟩ ⟨3⟩ ⟨4⟩ ⟨5⟩).2 "o1" ⟨9⟩ ⟨8⟩ ⟨7⟩ ⟨6⟩
      ⟨10⟩).2.2.1 (by simp [CreateOrder, NewManager])⟩

/-! ## First update for an unknown robot -/

/-- C6: for a robot id the store does not hold, each of `UpdatePosition`, `UpdateBattery` and
`UpdateStatus` returns no error and adds exactly one record, at that id, leaving every other
robot and the orders as they were. The record has `RobotID = id`, `IsOnline = true` and
`LastUpdated` the ingestion time; after `UpdatePosition` it has status Unknown, the submitted
position and a zero battery; after `UpdateBattery` status Unknown, the submitted battery and a
zero position; after `UpdateStatus` the submitted status, order id and error message with zero
position and battery. `GetRobotState` on the new store returns that record without error. -/
theorem first_update_creates_record (m : Manager) (id : String) (h : m.robots id = none) :
    (∀ (lat lon heading speed : Float64) (ts now : Time),
      (UpdatePosition m id lat lon heading speed ts now).1 = none ∧
      (UpdatePosition m id lat lon heading speed ts now).2.robots id = some
        { RobotID := id, Status := StatusUnknown,
          Position := { Latitude := lat, Longitude := lon, Heading := heading, Speed := speed,
                        Timestamp := ts },
          Battery := { Level := ⟨0⟩, IsCharging := false, Timestamp := ⟨0⟩ },
          CurrentOrderID := "", ErrorMessage := "", LastUpdated := now, IsOnline := true } ∧
      (∀ k, k ≠ id → (UpdatePosition m id lat lon heading speed ts now).2.robots k = m.robots k) ∧
      (UpdatePosition m id lat lon heading speed ts now).2.orders = m.orders ∧
      (GetRobotState (UpdatePosition m id lat lon heading speed ts now).2 id).1 =
        ((UpdatePosition m id lat lon heading speed ts now).2.robots id, none)) ∧
    (∀ (level : Float32) (isCharging : Bool) (ts now : Time),
      (UpdateBattery m id level isCharging ts now).1 = none ∧
      (UpdateBattery m id level isCharging ts now).2.robots id = some
        { RobotID := id, Status := StatusUnknown,
          Position := { Latitude := ⟨0⟩, Longitude := ⟨0⟩, Heading := ⟨0⟩, Speed := ⟨0⟩,
                        Timestamp := ⟨0⟩ },
          Battery := { Level := level, IsCharging := isCharging, Timestamp := ts },
          CurrentOrderID := "", ErrorMessage := "", LastUpdated := now, IsOnline := true } ∧
      (∀ k, k ≠ id → (UpdateBattery m id level isCharging ts now).2.robots k = m.robots k) ∧
      (UpdateBattery m id level isCharging ts now).2.orders = m.orders ∧
      (GetRobotState (UpdateBattery m id level isCharging ts now).2 id).1 =
        ((UpdateBattery m id level isCharging ts now).2.robots id, none)) ∧
    (∀ (status : RobotStatus) (orderID errorMessage : String) (ts now : Time),
      (UpdateStatus m id status orderID errorMessage ts now).1 = none ∧
      (UpdateStatus m id status orderID errorMessage ts now).2.robots id = some
        { RobotID := id, Status := status,
          Position := { Latitude := ⟨0⟩, Longitude := ⟨0⟩, Heading := ⟨0⟩, Speed := ⟨0⟩,
                        Timestamp := ⟨0⟩ },
          Battery := { Level := ⟨0⟩, IsCharging := false, Timestamp := ⟨0⟩ },
          CurrentOrderID := orderID, ErrorMessage := errorMessage, LastUpdated := now,
          IsOnline := true } ∧
      (∀ k, k ≠ id →
        (UpdateStatus m id status orderID errorMessage ts now).2.robots k = m.robots k) ∧
      (UpdateStatus m id status orderID errorMessage ts now).2.orders = m.orders ∧
      (GetRobotState (UpdateStatus m id status orderID errorMessage ts now).2 id).1 =
        ((UpdateStatus m id status orderID errorMessage ts now).2.robots id, none)) := by
  refine ⟨?_, ?_, ?_⟩
  · intro lat lon heading speed ts now
    refine ⟨rfl, by simp [UpdatePosition, h], ?_, rfl, by simp [UpdatePosition, GetRobotState]⟩
    intro k hk
    simp [UpdatePosition, hk]
  · intro level isCharging ts now
    refine ⟨rfl, by simp [UpdateBattery, h], ?_, rfl, by simp [UpdateBattery, GetRobotState]⟩
    intro k hk
    simp [UpdateBattery, hk]
  · intro status orderID errorMessage ts now
    refine ⟨rfl, by simp [UpdateStatus, h], ?_, rfl, by simp [UpdateStatus, GetRobotState]⟩
    intro k hk
    simp [UpdateStatus, hk]

/-- Evidence for C6: the empty store holds no robot "r1", and the first `UpdateStatus` for it
creates the record with the submitted status, order id and error message. -/
theorem first_update_creates_record_witness :
    NewManager.robots "r1" = none ∧
    (UpdateStatus NewManager "r1" StatusIdle "o7" "low tyre" ⟨3⟩ ⟨4⟩).2.robots "r1" = some
      { RobotID := "r1", Status := StatusIdle, CurrentOrderID := "o7", ErrorMessage := "low tyre",
        LastUpdated := ⟨4⟩, IsOnline := true } :=
  ⟨rfl, ((first_update_creates_record NewManager "r1" rfl).2.2 StatusIdle "o7" "low tyre"
    ⟨3⟩ ⟨4⟩).2.1⟩

/-! ## MarkRobotOffline -/

/-- C8: for an absent id `MarkRobotOffline` returns "robot … not found" and the store it was
given, so no record is created. For a present id it returns no error, the robot's record becomes
the old one with `IsOnline = false`, `Status = Offline` and `LastUpdated` the ingestion time
(id, position, battery, current order and error message as before), and every other robot and
the orders are as before. -/
theorem markRobotOffline_contract (m : Manager) (id : String) (now : Time) :
    (m.robots id = none →
      MarkRobotOffline m id now = (some ("robot " ++ id ++ " not found"), m)) ∧
    (∀ robot, m.robots id = some robot →
      (MarkRobotOffline m id now).1 = none ∧
      (∃ robot', (MarkRobotOffline m id now).2.robots id = some robot' ∧
        robot'.IsOnline = false ∧ robot'.Status = StatusOffline ∧ robot'.LastUpdated = now ∧
        robot'.RobotID = robot.RobotID ∧ robot'.Position = robot.Position ∧
        robot'.Battery = robot.Battery ∧ robot'.CurrentOrderID = robot.CurrentOrderID ∧
        robot'.ErrorMessage = robot.ErrorMessage) ∧
      (∀ k, k ≠ id → (MarkRobotOffline m id now).2.robots k = m.robots k) ∧
      (MarkRobotOffline m id now).2.orders = m.orders) := by
  refine ⟨?_, ?_⟩
  · intro h
    simp [MarkRobotOffline, h]
  · intro robot h
    refine ⟨by simp [MarkRobotOffline, h],
      ⟨{ robot with IsOnline := false, Status := StatusOffline, LastUpdated := now },
        by simp [MarkRobotOffline, h], rfl, rfl, rfl, rfl, rfl, rfl, rfl, rfl⟩, ?_,
      by simp [MarkRobotOffline, h]⟩
    intro k hk
    simp [MarkRobotOffline, h, hk]

/-- Evidence for C8: on the empty store the call is refused and nothing is created; after one
battery report for "r1" the call succeeds and keeps the reported battery. -/
theorem markRobotOffline_contract_witness :
    MarkRobotOffline NewManager "r1" ⟨9⟩ = (some ("robot " ++ "r1" ++ " not found"), NewManager) ∧
    (MarkRobotOffline (UpdateBattery NewManager "r1" ⟨77⟩ true ⟨1⟩ ⟨2⟩).2 "r1" ⟨9⟩).1 = none ∧
    ∃ robot', (MarkRobotOffline (UpdateBattery NewManager "r1" ⟨77⟩ true ⟨1⟩ ⟨2⟩).2 "r1"
        ⟨9⟩).2.robots "r1" = some robot' ∧
      robot'.IsOnline = false ∧ robot'.Status = StatusOffline ∧
      robot'.Battery = { Level := ⟨77⟩, IsCharging := true, Timestamp := ⟨1⟩ } :=
  have h := (markRobotOffline_contract (UpdateBattery NewManager "r1" ⟨77⟩ true ⟨1⟩ ⟨2⟩).2 "r1"
    ⟨9⟩).2
    { RobotID := "r1", Status := StatusUnknown,
      Battery := { Level := ⟨77⟩, IsCharging := true, Timestamp := ⟨1⟩ },
      LastUpdated := ⟨2⟩, IsOnline := true }
    (by simp [UpdateBattery, NewManager])
  ⟨(markRobotOffline_contract NewManager "r1" ⟨9⟩).1 rfl, h.1,
    h.2.1.imp fun _ h1 => ⟨h1.1, h1.2.1, h1.2.2.1, h1.2.2.2.2.2.2.1⟩⟩

/-! ## UpdateStatus -/

/-- C9: for every store and robot id, present or not, `UpdateStatus id s o e t` returns no error
and leaves at `id` a record whose `Status`, `CurrentOrderID` and `ErrorMessage` are exactly `s`,
`o` and `e` (so an empty `o` or `e` leaves the field empty) and whose `IsOnline` is true; if the
robot was present its id, position and battery are the old ones. -/
theorem updateStatus_replaces (m : Manager) (id : String) (s : RobotStatus) (o e : String)
    (t now : Time) :
    (UpdateStatus m id s o e t now).1 = none ∧
    ∃ robot', (UpdateStatus m id s o e t now).2.robots id = some robot' ∧
      robot'.Status = s ∧ robot'.CurrentOrderID = o ∧ robot'.ErrorMessage = e ∧
      robot'.IsOnline = true ∧
      (∀ old, m.robots id = some old →
        robot'.RobotID = old.RobotID ∧ robot'.Position = old.Position ∧
        robot'.Battery = old.Battery) := by
  refine ⟨rfl, ?_⟩
  cases h : m.robots id with
  | none =>
    exact ⟨{ RobotID := id, Status := s, CurrentOrderID := o, ErrorMessage := e,
             LastUpdated := now, IsOnline := true },
      by simp only [UpdateStatus, h, setRobot_robots_same], rfl, rfl, rfl, rfl, by simp⟩
  | some old =>
    refine ⟨{ old with Status := s, CurrentOrderID := o, ErrorMessage := e,
                       LastUpdated := now, IsOnline := true },
      by simp only [UpdateStatus, h, setRobot_robots_same], rfl, rfl, rfl, rfl, ?_⟩
    intro old2 h2
    cases h2
    exact ⟨rfl, rfl, rfl⟩

/-! ## UpdatePosition and UpdateBattery on a known robot -/

/-- C10: for a robot already present, `UpdatePosition` returns no error and replaces its record
by the old one with the submitted `Position`, `IsOnline = true` and `LastUpdated` the ingestion
time, so status, battery, current order and error message are as before; every other robot and
the orders are as before. `UpdateBattery` does the same with `Battery` in place of `Position`.
And for every store, after a position update followed by a battery update for one robot,
`GetRobotState` returns without error a record holding both submitted values. -/
theorem updatePosition_updateBattery_frame (m : Manager) (id : String) :
    (∀ robot, m.robots id = some robot →
      (∀ (lat lon heading speed : Float64) (ts now : Time),
        (UpdatePosition m id lat lon heading speed ts now).1 = none ∧
        (UpdatePosition m id lat lon heading speed ts now).2.robots id = some
          { RobotID := robot.RobotID, Status := robot.Status,
            Position := { Latitude := lat, Longitude := lon, Heading := heading, Speed := speed,
                          Timestamp := ts },
            Battery := robot.Battery, CurrentOrderID := robot.CurrentOrderID,
            ErrorMessage := robot.ErrorMessage, LastUpdated := now, IsOnline := true } ∧
        (∀ k, k ≠ id →
          (UpdatePosition m id lat lon heading speed ts now).2.robots k = m.robots k) ∧
        (UpdatePosition m id lat lon heading speed ts now).2.orders = m.orders) ∧
      (∀ (level : Float32) (isCharging : Bool) (ts now : Time),
        (UpdateBattery m id level isCharging ts now).1 = none ∧
        (UpdateBattery m id level isCharging ts now).2.robots id = some
          { RobotID := robot.RobotID, Status := robot.Status, Position := robot.Position,
            Battery := { Level := level, IsCharging := isCharging, Timestamp := ts },
            CurrentOrderID := robot.CurrentOrderID, ErrorMessage := robot.ErrorMessage,
            LastUpdated := now, IsOnline := true } ∧
        (∀ k, k ≠ id → (UpdateBattery m id level isCharging ts now).2.robots k = m.robots k) ∧
        (UpdateBattery m id level isCharging ts now).2.orders = m.orders)) ∧
    (∀ (lat lon heading speed : Float64) (ts1 now1 : Time) (level : Float32) (isCharging : Bool)
        (ts2 now2 : Time),
      ∃ robot', (GetRobotState (UpdateBattery (UpdatePosition m id lat lon heading speed ts1
          now1).2 id level isCharging ts2 now2).2 id).1 = (some robot', none) ∧
        robot'.Position = { Latitude := lat, Longitude := lon, Heading := heading,
                            Speed := speed, Timestamp := ts1 } ∧
        robot'.Battery = { Level := level, IsCharging := isCharging, Timestamp := ts2 }) := by
  refine ⟨?_, ?_⟩
  · intro robot h
    refine ⟨?_, ?_⟩
    · intro lat lon heading speed ts now
      refine ⟨rfl, by simp [UpdatePosition, h], ?_, rfl⟩
      intro k hk
      simp [UpdatePosition, hk]
    · intro level isCharging ts now
      refine ⟨rfl, by simp [UpdateBattery, h], ?_, rfl⟩
      intro k hk
      simp [UpdateBattery, hk]
  · intro lat lon heading speed ts1 now1 level isCharging ts2 now2
    have hb : ∀ (s : Manager), ∃ robot',
        (GetRobotState (UpdateBattery s id level isCharging ts2 now2).2 id).1 =
          (some robot', none) ∧
        robot'.Position = (match s.robots id with
          | some robot => robot.Position
          | none => {}) ∧
        robot'.Battery = { Level := level, IsCharging := isCharging, Timestamp := ts2 } := by
      intro s
      cases hs : s.robots id with
      | none =>
        exact ⟨{ RobotID := id, Status := StatusUnknown,
                 Battery := { Level := level, IsCharging := isCharging, Timestamp := ts2 },
                 LastUpdated := now2, IsOnline := true },
          by simp only [UpdateBattery, GetRobotState, hs, setRobot_robots_same], rfl, rfl⟩
      | some robot =>
        exact ⟨{ robot with
                   Battery := { Level := level, IsCharging := isCharging, Timestamp := ts2 },
                   LastUpdated := now2, IsOnline := true },
          by simp only [UpdateBattery, GetRobotState, hs, setRobot_robots_same], rfl, rfl⟩
    obtain ⟨robot', h1, h2, h3⟩ := hb (UpdatePosition m id lat lon heading speed ts1 now1).2
    refine ⟨robot', h1, ?_, h3⟩
    rw [h2]
    simp only [UpdatePosition, setRobot_robots_same]

/-- Evidence for C10: "r1" is present after a status report, and a position report then keeps
the reported status, order id and error message. -/
theorem updatePosition_updateBattery_frame_witness :
    (UpdateStatus NewManager "r1" StatusIdle "o7" "e" ⟨1⟩ ⟨2⟩).2.robots "r1" = some
      { RobotID := "r1", Status := StatusIdle, CurrentOrderID := "o7", ErrorMessage := "e",
        LastUpdated := ⟨2⟩, IsOnline := true } ∧
    (UpdatePosition (UpdateStatus NewManager "r1" StatusIdle "o7" "e" ⟨1⟩ ⟨2⟩).2 "r1"
        ⟨10⟩ ⟨20⟩ ⟨30⟩ ⟨40⟩ ⟨5⟩ ⟨6⟩).2.robots "r1" = some
      { RobotID := "r1", Status := StatusIdle,
        Position := { Latitude := ⟨10⟩, Longitude := ⟨20⟩, Heading := ⟨30⟩, Speed := ⟨40⟩,
                      Timestamp := ⟨5⟩ },
        CurrentOrderID := "o7", ErrorMessage := "e", LastUpdated := ⟨6⟩, IsOnline := true } :=
  have h0 : (UpdateStatus NewManager "r1" StatusIdle "o7" "e" ⟨1⟩ ⟨2⟩).2.robots "r1" = some
      { RobotID := "r1", Status := StatusIdle, CurrentOrderID := "o7", ErrorMessage := "e",
        LastUpdated := ⟨2⟩, IsOnline := true } := by
    simp [UpdateStatus, NewManager]
  ⟨h0, (((updatePosition_updateBattery_frame
    (UpdateStatus NewManager "r1" StatusIdle "o7" "e" ⟨1⟩ ⟨2⟩).2 "r1").1 _ h0).1
    ⟨10⟩ ⟨20⟩ ⟨30⟩ ⟨40⟩ ⟨5⟩ ⟨6⟩).2.1⟩

/-! ## GetRobotState after a sequence of calls -/

/-- One call leaves robot `id` absent exactly when it was absent and the call is not a report
for `id`. -/
theorem call_robots_eq_none (m : Manager) (op : Op) (id : String) :
    (op.call m).2.robots id = none ↔ (m.robots id = none ∧ op.reports id = false) := by
  cases op with
  | updatePosition robotID lat lon heading speed timestamp now =>
    by_cases hk : id = robotID
    · subst hk
      simp [Op.call, Op.reports, UpdatePosition]
    · have hk2 : ¬ robotID = id := fun h => hk h.symm
      simp [Op.call, Op.reports, UpdatePosition, hk, hk2]
  | updateBattery robotID level isCharging timestamp now =>
    by_cases hk : id = robotID
    · subst hk
      simp [Op.call, Op.reports, UpdateBattery]
    · have hk2 : ¬ robotID = id := fun h => hk h.symm
      simp [Op.call, Op.reports, UpdateBattery, hk, hk2]
  | updateStatus robotID status currentOrderID errorMessage timestamp now =>
    by_cases hk : id = robotID
    · subst hk
      simp [Op.call, Op.reports, UpdateStatus]
    · have hk2 : ¬ robotID = id := fun h => hk h.symm
      simp [Op.call, Op.reports, UpdateStatus, hk, hk2]
  | markRobotOffline robotID now =>
    simp only [Op.call, Op.reports, MarkRobotOffline, and_true]
    cases h : m.robots robotID with
    | none => simp
    | some robot =>
      by_cases hk : id = robotID
      · subst hk
        simp [h]
      · simp [hk]
  | createOrder orderID pickupLat pickupLon dropoffLat dropoffLon now =>
    simp only [Op.call, Op.reports, CreateOrder, and_true]
    cases h : m.orders orderID <;> simp
  | assignOrderToRobot orderID robotID now1 now2 =>
    simp only [Op.call, Op.reports, AssignOrderToRobot, and_true]
    cases h : m.orders orderID with
    | none => simp
    | some order =>
      cases h2 : m.robots robotID with
      | none => simp
      | some robot =>
        by_cases hk : id = robotID
        · subst hk
          simp [h2]
        · simp [hk]

/-- After a sequence of calls robot `id` is absent exactly when it was absent at the start and
no call of the sequence is a report for `id`. -/
theorem run_robots_eq_none (ops : List Op) (m : Manager) (id : String) :
    (run m ops).robots id = none ↔ (m.robots id = none ∧ ∀ op ∈ ops, op.reports id = false) := by
  induction ops generalizing m with
  | nil => simp [run]
  | cons op ops ih =>
    have hstep : run m (op :: ops) = run (op.call m).2 ops := rfl
    rw [hstep, ih, call_robots_eq_none]
    simp [and_assoc]

/-- C7: on the store reached from the empty store by any sequence of calls, `GetRobotState id`
returns "robot … not found" (and no record) exactly when no call of the sequence is an
`UpdatePosition`, `UpdateBattery` or `UpdateStatus` for `id`, and returns a record without error
exactly when some call is; the read leaves the store as it is. In particular a
`MarkRobotOffline`, `CreateOrder` or `AssignOrderToRobot` call on a store without robot `id`
leaves it without robot `id`. -/
theorem getRobotState_notFound_iff (ops : List Op) (id : String) :
    ((GetRobotState (run NewManager ops) id).1 =
        (none, some ("robot " ++ id ++ " not found")) ↔
      ∀ op ∈ ops, op.reports id = false) ∧
    ((∃ robot, (GetRobotState (run NewManager ops) id).1 = (some robot, none)) ↔
      ∃ op ∈ ops, op.reports id = true) ∧
    (GetRobotState (run NewManager ops) id).2 = run NewManager ops ∧
    (∀ (m : Manager), m.robots id = none →
      (∀ r now, (MarkRobotOffline m r now).2.robots id = none) ∧
      (∀ o a b c d now, (CreateOrder m o a b c d now).2.robots id = none) ∧
      (∀ o r now1 now2, (AssignOrderToRobot m o r now1 now2).2.robots id = none)) := by
  have key := run_robots_eq_none ops NewManager id
  have h0 : NewManager.robots id = none := rfl
  simp only [h0, true_and] at key
  refine ⟨?_, ?_, ?_, ?_⟩
  · rw [← key]
    unfold GetRobotState
    cases h : (run NewManager ops).robots id <;> simp
  · have key2 : (∃ op ∈ ops, op.reports id = true) ↔ (run NewManager ops).robots id ≠ none := by
      rw [Ne, key]
      simp
    rw [key2]
    unfold GetRobotState
    cases h : (run NewManager ops).robots id <;> simp
  · unfold GetRobotState
    cases h : (run NewManager ops).robots id <;> rfl
  · intro m hm
    refine ⟨?_, ?_, ?_⟩
    · intro r now
      exact (call_robots_eq_none m (.markRobotOffline r now) id).2 ⟨hm, rfl⟩
    · intro o a b c d now
      exact (call_robots_eq_none m (.createOrder o a b c d now) id).2 ⟨hm, rfl⟩
    · intro o r now1 now2
      exact (call_robots_eq_none m (.assignOrderToRobot o r now1 now2) id).2 ⟨hm, rfl⟩

/-! ## GetAvailableRobots -/

/-- The loop appends, in visiting order, the entries that pass the test. -/
theorem foldl_availableStep (minBattery : Float32) (l available : List RobotState) :
    l.foldl (availableStep minBattery) available =
      available ++ l.filter (passes minBattery) := by
  induction l generalizing available with
  | nil => simp
  | cons robot l ih =>
    rw [List.foldl_cons, ih]
    unfold availableStep
    by_cases h : passes minBattery robot = true
    · rw [if_pos h, List.filter_cons_of_pos h, List.append_assoc]
      rfl
    · rw [if_neg h, List.filter_cons_of_neg h]

/-- The test of the code holds exactly for the records the specification calls available. -/
theorem passes_iff_available (minBattery : Float32) (robot : RobotState) :
    passes minBattery robot = true ↔ Available minBattery robot := by
  unfold Available passes
  cases hc : robot.Battery.IsCharging <;> simp
  tauto

/-- Filtering the records of a key list is reading the records of the filtered key list. -/
theorem filter_filterMap_keys {α : Type} (f : String → Option α) (p : α → Bool)
    (l : List String) :
    (l.filterMap f).filter p = (l.filter (fun k => (f k).any p)).filterMap f := by
  induction l with
  | nil => rfl
  | cons k l ih =>
    cases hk : f k with
    | none => simp [List.filter_cons, hk, ih]
    | some a =>
      by_cases hp : p a = true
      · simp [List.filter_cons, hk, hp, ih]
      · simp [List.filter_cons, hk, hp, ih]

/-- Reading the records of keys that are all present yields one record per key, and when every
record carries its key as `RobotID` the ids read back are the keys. -/
theorem filterMap_present (f : String → Option RobotState) (l : List String)
    (hl : ∀ k ∈ l, ∃ robot, f k = some robot) :
    (l.filterMap f).length = l.length ∧
    ((∀ k robot, f k = some robot → robot.RobotID = k) →
      (l.filterMap f).map (fun robot => robot.RobotID) = l) := by
  induction l with
  | nil => simp
  | cons k l ih =>
    obtain ⟨robot, hk⟩ := hl k (List.mem_cons_self k l)
    have ih2 := ih (fun j hj => hl j (List.mem_cons_of_mem k hj))
    rw [List.filterMap_cons_some hk]
    refine ⟨by simp [ih2.1], ?_⟩
    intro hid
    rw [List.map_cons, ih2.2 hid, hid k robot hk]

/-- C5: whatever order `range` visits the robot registry in, `GetAvailableRobots minBattery`
leaves the store as it is and returns exactly the records that are idle, online, not charging and
at or above `minBattery`: a record is returned if and only if it is the record of some key and
passes that filter, and the result is the list of the records of a duplicate-free list of keys
(exactly the keys whose record passes), one record per key; so when every record carries its key
as `RobotID`, no robot id occurs twice in the result. -/
theorem getAvailableRobots_contract (m : Manager) (visit : List String) (minBattery : Float32)
    (hv : m.RangeOrder visit) :
    (GetAvailableRobots m visit minBattery).2 = m ∧
    (∀ robot, robot ∈ (GetAvailableRobots m visit minBattery).1 ↔
      ∃ k, m.robots k = some robot ∧ Available minBattery robot) ∧
    (∃ keys : List String, keys.Nodup ∧
      (∀ k, k ∈ keys ↔ ∃ robot, m.robots k = some robot ∧ Available minBattery robot) ∧
      (GetAvailableRobots m visit minBattery).1 = keys.filterMap m.robots ∧
      (GetAvailableRobots m visit minBattery).1.length = keys.length) ∧
    ((∀ k robot, m.robots k = some robot → robot.RobotID = k) →
      ((GetAvailableRobots m visit minBattery).1.map (fun robot => robot.RobotID)).Nodup) := by
  obtain ⟨hnd, hmem⟩ := hv
  have hres : (GetAvailableRobots m visit minBattery).1 =
      (visit.filter (fun k => (m.robots k).any (passes minBattery))).filterMap m.robots := by
    unfold GetAvailableRobots
    rw [foldl_availableStep, List.nil_append, filter_filterMap_keys]
  have hkeys : ∀ k, k ∈ visit.filter (fun k => (m.robots k).any (passes minBattery)) ↔
      ∃ robot, m.robots k = some robot ∧ Available minBattery robot := by
    intro k
    rw [List.mem_filter, hmem]
    cases hk : m.robots k with
    | none => simp
    | some robot =>
      have := passes_iff_available minBattery robot
      simp only [Option.isSome_some, true_and, Option.some.injEq, exists_eq_left',
        Option.any_some, this]
  have hpres := filterMap_present m.robots _ (fun k hk => by
    obtain ⟨robot, h1, _⟩ := (hkeys k).1 hk
    exact ⟨robot, h1⟩)
  refine ⟨rfl, ?_, ⟨_, hnd.filter _, hkeys, hres, by rw [hres]; exact hpres.1⟩, ?_⟩
  · intro robot
    rw [hres, List.mem_filterMap]
    constructor
    · rintro ⟨k, hk, hrob⟩
      obtain ⟨robot2, h1, h2⟩ := (hkeys k).1 hk
      rw [h1] at hrob
      cases hrob
      exact ⟨k, h1, h2⟩
    · rintro ⟨k, h1, h2⟩
      exact ⟨k, (hkeys k).2 ⟨robot, h1, h2⟩, h1⟩
  · intro hid
    rw [hres, hpres.2 hid]
    exact hnd.filter _

/-- The registry of `fleetABC`, key by key. -/
theorem fleetABC_robots (k : String) :
    fleetABC.robots k =
      if k = "C" then some { RobotID := "C", Status := StatusIdle,
                             Battery := { Level := ⟨0x42B40000⟩, IsCharging := true },
                             IsOnline := true }
      else if k = "B" then some { RobotID := "B", Status := StatusIdle,
                                  Battery := { Level := ⟨0x42200000⟩, IsCharging := false },
                                  IsOnline := true }
      else if k = "A" then some { RobotID := "A", Status := StatusIdle,
                                  Battery := { Level := ⟨0x42A00000⟩, IsCharging := false },
                                  IsOnline := true }
      else none := by
  simp only [fleetABC, run, List.foldl, Op.call, UpdateStatus, UpdateBattery, NewManager,
    Manager.setRobot, Function.update]
  by_cases hC : k = "C"
  · subst hC
    simp
  · by_cases hB : k = "B"
    · subst hB
      simp
    · by_cases hA : k = "A"
      · subst hA
        simp
      · simp [hA, hB, hC]

/-- Evidence for C5, the example of the specification: in `fleetABC` with threshold 50
(0x42480000 as `float32`) the visiting order A, B, C is a possible one, only the record of A is
returned, and the returned records are exactly the available ones. -/
theorem getAvailableRobots_contract_witness :
    fleetABC.RangeOrder ["A", "B", "C"] ∧
    (GetAvailableRobots fleetABC ["A", "B", "C"] ⟨0x42480000⟩).1 =
      [{ RobotID := "A", Status := StatusIdle,
         Battery := { Level := ⟨0x42A00000⟩, IsCharging := false }, IsOnline := true }] ∧
    (GetAvailableRobots fleetABC ["C", "B", "A"] ⟨0x42480000⟩).1 =
      [{ RobotID := "A", Status := StatusIdle,
         Battery := { Level := ⟨0x42A00000⟩, IsCharging := false }, IsOnline := true }] ∧
    (∀ robot, robot ∈ (GetAvailableRobots fleetABC ["A", "B", "C"] ⟨0x42480000⟩).1 ↔
      ∃ k, fleetABC.robots k = some robot ∧ Available ⟨0x42480000⟩ robot) :=
  have h : fleetABC.RangeOrder ["A", "B", "C"] :=
    ⟨by decide, fun k => by
      rw [fleetABC_robots]
      by_cases hC : k = "C"
      · subst hC
        simp
      · by_cases hB : k = "B"
        · subst hB
          simp
        · by_cases hA : k = "A"
          · subst hA
            simp
          · simp [hA, hB, hC]⟩
  ⟨h,
   by simp [GetAvailableRobots, fleetABC_robots, availableStep, passes, Float32.ge, Float32.isNaN,
        Float32.key, StatusIdle],
   by simp [GetAvailableRobots, fleetABC_robots, availableStep, passes, Float32.ge, Float32.isNaN,
        Float32.key, StatusIdle],
   (getAvailableRobots_contract fleetABC ["A", "B", "C"] ⟨0x42480000⟩ h).2.1⟩

/-! ## The order/robot back-references -/

/-- Writing a robot record that carries the order id the robot had (the empty one if the robot
is new) keeps the pairing. -/
theorem paired_setRobot (m : Manager) (r : String) (new : RobotState) (hp : Paired m)
    (hold : ∀ old, m.robots r = some old → new.CurrentOrderID = old.CurrentOrderID)
    (hnew : m.robots r = none → new.CurrentOrderID = "") : Paired (m.setRobot r new) := by
  obtain ⟨h0, h1, h2⟩ := hp
  refine ⟨h0, ?_, ?_⟩
  · intro k robot hk hne
    by_cases hkr : k = r
    · subst hkr
      rw [setRobot_robots_same] at hk
      cases hk
      cases hm : m.robots k with
      | none => exact absurd (hnew hm) hne
      | some old =>
        rw [hold old hm] at hne ⊢
        exact h1 k old hm hne
    · rw [setRobot_robots_other m r k new hkr] at hk
      exact h1 k robot hk hne
  · intro o order ho hst
    obtain ⟨robot, hr, hc⟩ := h2 o order ho hst
    by_cases hkr : order.AssignedRobot = r
    · refine ⟨new, by rw [hkr]; exact setRobot_robots_same m r new, ?_⟩
      rw [hkr] at hr
      rw [hold robot hr]
      exact hc
    · exact ⟨robot, by rw [setRobot_robots_other m r _ new hkr]; exact hr, hc⟩

/-- Adding a pending order under a fresh non-empty id keeps the pairing. -/
theorem paired_setOrder_pending (m : Manager) (o : String) (new : OrderState) (hp : Paired m)
    (hne : o ≠ "") (hfresh : m.orders o = none) (hst : new.Status = "pending") :
    Paired (m.setOrder o new) := by
  obtain ⟨h0, h1, h2⟩ := hp
  refine ⟨?_, ?_, ?_⟩
  · rw [setOrder_orders_other m o "" new (fun h => hne h.symm)]
    exact h0
  · intro k robot hk hcur
    obtain ⟨order, ho, hs, ha⟩ := h1 k robot hk hcur
    have hko : robot.CurrentOrderID ≠ o := by
      intro h
      rw [h, hfresh] at ho
      cases ho
    exact ⟨order, by rw [setOrder_orders_other m o _ new hko]; exact ho, hs, ha⟩
  · intro k order hk hs
    by_cases hko : k = o
    · subst hko
      rw [setOrder_orders_same] at hk
      cases hk
      rw [hst] at hs
      exact absurd hs (by decide)
    · rw [setOrder_orders_other m o k new hko] at hk
      exact h2 k order hk hs

/-- Assigning a pending order to a robot without current order keeps the pairing. -/
theorem paired_assign (m : Manager) (o r : String) (order : OrderState) (robot : RobotState)
    (order' : OrderState) (robot' : RobotState) (hp : Paired m)
    (ho : m.orders o = some order) (hr : m.robots r = some robot)
    (hpend : order.Status = "pending") (hfree : robot.CurrentOrderID = "")
    (ho1 : order'.AssignedRobot = r) (ho2 : order'.Status = "assigned")
    (hr1 : robot'.CurrentOrderID = o) :
    Paired ((m.setOrder o order').setRobot r robot') := by
  obtain ⟨h0, h1, h2⟩ := hp
  have hone : o ≠ "" := by
    intro h
    rw [h, h0] at ho
    cases ho
  refine ⟨?_, ?_, ?_⟩
  · rw [setRobot_orders, setOrder_orders_other m o "" order' (fun h => hone h.symm)]
    exact h0
  · intro k rob hk hcur
    rw [setRobot_orders]
    by_cases hkr : k = r
    · subst hkr
      rw [setRobot_robots_same] at hk
      cases hk
      rw [hr1]
      exact ⟨order', setOrder_orders_same m o order', ho2, ho1⟩
    · rw [setRobot_robots_other _ r k robot' hkr, setOrder_robots] at hk
      obtain ⟨ord, hord, hs, ha⟩ := h1 k rob hk hcur
      have hco : rob.CurrentOrderID ≠ o := by
        intro h
        rw [h, ho] at hord
        cases hord
        rw [hpend] at hs
        exact absurd hs (by decide)
      exact ⟨ord, by rw [setOrder_orders_other m o _ order' hco]; exact hord, hs, ha⟩
  · intro j ord hj hs
    rw [setRobot_orders] at hj
    by_cases hjo : j = o
    · subst hjo
      rw [setOrder_orders_same] at hj
      cases hj
      rw [ho1]
      exact ⟨robot', setRobot_robots_same _ r robot', hr1⟩
    · rw [setOrder_orders_other m o j order' hjo] at hj
      obtain ⟨rob, hrob, hc⟩ := h2 j ord hj hs
      have hne : ord.AssignedRobot ≠ r := by
        intro h
        rw [h, hr] at hrob
        cases hrob
        rw [hfree] at hc
        rw [← hc, h0] at hj
        cases hj
      exact ⟨rob, by rw [setRobot_robots_other _ r _ robot' hne, setOrder_robots]; exact hrob, hc⟩

/-- One call that keeps the discipline keeps the pairing. -/
theorem paired_call (m : Manager) (op : Op) (hp : Paired m) (hk : op.keepsPairing m) :
    Paired (op.call m).2 := by
  cases op with
  | updatePosition robotID lat lon heading speed timestamp now =>
    apply paired_setRobot m robotID _ hp
    · intro old hold
      simp only [hold]
    · intro hnone
      simp only [hnone]
  | updateBattery robotID level isCharging timestamp now =>
    apply paired_setRobot m robotID _ hp
    · intro old hold
      simp only [hold]
    · intro hnone
      simp only [hnone]
  | updateStatus robotID status currentOrderID errorMessage timestamp now =>
    simp only [Op.keepsPairing] at hk
    apply paired_setRobot m robotID _ hp
    · intro old hold
      rw [hold] at hk
      exact hk
    · intro hnone
      rw [hnone] at hk
      exact hk
  | markRobotOffline robotID now =>
    simp only [Op.call, MarkRobotOffline]
    cases h : m.robots robotID with
    | none => exact hp
    | some robot =>
      apply paired_setRobot m robotID _ hp
      · intro old hold
        rw [h] at hold
        cases hold
        rfl
      · intro hnone
        rw [h] at hnone
        cases hnone
  | createOrder orderID pickupLat pickupLon dropoffLat dropoffLon now =>
    simp only [Op.call, CreateOrder]
    cases h : m.orders orderID with
    | some order => exact hp
    | none => exact paired_setOrder_pending m orderID _ hp hk h rfl
  | assignOrderToRobot orderID robotID now1 now2 =>
    simp only [Op.call, AssignOrderToRobot]
    cases h : m.orders orderID with
    | none => exact hp
    | some order =>
      cases h2 : m.robots robotID with
      | none => exact hp
      | some robot =>
        obtain ⟨hpend, hfree⟩ := hk order robot h h2
        exact paired_assign m orderID robotID order robot _ _ hp h h2 hpend hfree rfl rfl rfl

/-- A sequence of calls that keeps the discipline keeps the pairing. -/
theorem paired_run (ops : List Op) (m : Manager) (hp : Paired m) (hk : pairingKept m ops) :
    Paired (run m ops) := by
  induction ops generalizing m with
  | nil => exact hp
  | cons op ops ih => exact ih (op.call m).2 (paired_call m op hp hk.1) hk.2

/-- C1 as stated fails: after a position report for "r1", `CreateOrder "o1"`,
`AssignOrderToRobot "o1" "r1"` and a status report for "r1" with an empty order id, order "o1" is
still "assigned" to "r1" while the `CurrentOrderID` of "r1" is empty. -/
theorem backRefs_broken_by_updateStatus :
    ¬ BackRefsAgree (run NewManager
      [ .updatePosition "r1" {} {} {} {} {} {},
        .createOrder "o1" {} {} {} {} {},
        .assignOrderToRobot "o1" "r1" {} {},
        .updateStatus "r1" StatusIdle "" "" {} {} ]) := by
  intro h
  obtain ⟨robot, hr, hc⟩ := h.1 "o1"
    { OrderID := "o1", AssignedRobot := "r1", Status := "assigned" }
    (by simp [run, Op.call, UpdatePosition, CreateOrder, AssignOrderToRobot, UpdateStatus,
      NewManager]) rfl
  simp [run, Op.call, UpdatePosition, CreateOrder, AssignOrderToRobot, UpdateStatus,
    NewManager] at hr
  subst hr
  simp at hc

/-- C1, amended: in every store reached from the empty store by a sequence of calls that keeps
the discipline of `Op.keepsPairing` (status reports re-submit the robot's current order id,
orders are created under non-empty ids, an assignment that finds both sides takes a pending
order and a robot without current order), the back-references agree. -/
theorem backRefs_agree_of_pairingKept (ops : List Op) (hk : pairingKept NewManager ops) :
    BackRefsAgree (run NewManager ops) := by
  have hnew : Paired NewManager := by
    refine ⟨rfl, ?_, ?_⟩
    · intro r robot h
      cases h
    · intro o order h
      cases h
  have hp : Paired (run NewManager ops) := paired_run ops NewManager hnew hk
  obtain ⟨h0, h1, h2⟩ := hp
  refine ⟨h2, ?_⟩
  intro r robot hr order ho
  have hne : robot.CurrentOrderID ≠ "" := by
    intro h
    rw [h, h0] at ho
    cases ho
  obtain ⟨order2, ho2, _, ha⟩ := h1 r robot hr hne
  rw [ho] at ho2
  cases ho2
  exact ha

/-- Evidence for the amended C1: a position report, an order, its assignment, a status report
that re-submits the assigned order id and an offline mark keep the discipline, so the
back-references agree at the end. -/
theorem backRefs_agree_of_pairingKept_witness :
    pairingKept NewManager
      [ .updatePosition "r1" {} {} {} {} {} {},
        .createOrder "o1" {} {} {} {} {},
        .assignOrderToRobot "o1" "r1" {} {},
        .updateStatus "r1" StatusMovingToPickup "o1" "" {} {},
        .markRobotOffline "r1" {} ] ∧
    BackRefsAgree (run NewManager
      [ .updatePosition "r1" {} {} {} {} {} {},
        .createOrder "o1" {} {} {} {} {},
        .assignOrderToRobot "o1" "r1" {} {},
        .updateStatus "r1" StatusMovingToPickup "o1" "" {} {},
        .markRobotOffline "r1" {} ]) :=
  have h : pairingKept NewManager
      [ .updatePosition "r1" {} {} {} {} {} {},
        .createOrder "o1" {} {} {} {} {},
        .assignOrderToRobot "o1" "r1" {} {},
        .updateStatus "r1" StatusMovingToPickup "o1" "" {} {},
        .markRobotOffline "r1" {} ] := by
    simp [pairingKept, Op.keepsPairing, Op.call, UpdatePosition, CreateOrder, AssignOrderToRobot,
      UpdateStatus, NewManager]
  ⟨h, backRefs_agree_of_pairingKept _ h⟩

/-! ## The unary handlers -/

/-- C11: for every store and every input the store operations `UpdatePosition`, `UpdateBattery`
and `UpdateStatus` return no error; so for every handler, request and numbering of the status
constants the unary handlers return no transport error and the acknowledgment `Success = true`
with the fixed text, and leave behind the store their store operation leaves. -/
theorem updates_never_fail :
    (∀ (m : Manager) (robotID : String) (lat lon heading speed : Float64) (ts now : Time),
      (UpdatePosition m robotID lat lon heading speed ts now).1 = none) ∧
    (∀ (m : Manager) (robotID : String) (level : Float32) (isCharging : Bool) (ts now : Time),
      (UpdateBattery m robotID level isCharging ts now).1 = none) ∧
    (∀ (m : Manager) (robotID : String) (status : RobotStatus) (o e : String) (ts now : Time),
      (UpdateStatus m robotID status o e ts now).1 = none) ∧
    (∀ (h : RobotHandler) (req : PositionUpdate) (now : Time),
      (h.UpdatePosition req now).1 =
        ({ Success := true, Message := "Position updated successfully" }, none) ∧
      (h.UpdatePosition req now).2.stateManager =
        (UpdatePosition h.stateManager req.RobotId req.Latitude req.Longitude req.Heading
          req.Speed (UnixMilli req.Timestamp) now).2) ∧
    (∀ (h : RobotHandler) (req : BatteryUpdate) (now : Time),
      (h.UpdateBattery req now).1 =
        ({ Success := true, Message := "Battery updated successfully" }, none) ∧
      (h.UpdateBattery req now).2.stateManager =
        (UpdateBattery h.stateManager req.RobotId req.BatteryLevel req.IsCharging
          (UnixMilli req.Timestamp) now).2) ∧
    (∀ (pb : RobotStatusValues) (h : RobotHandler) (req : StatusUpdate) (now : Time),
      (RobotHandler.UpdateStatus pb h req now).1 =
        ({ Success := true, Message := "Status updated successfully" }, none) ∧
      (RobotHandler.UpdateStatus pb h req now).2.stateManager =
        (UpdateStatus h.stateManager req.RobotId (convertProtoStatus pb req.Status)
          req.CurrentOrderId req.ErrorMessage (UnixMilli req.Timestamp) now).2) := by
  refine ⟨?_, ?_, ?_, ?_, ?_, ?_⟩
  · intros
    rfl
  · intros
    rfl
  · intros
    rfl
  · intro h req now
    exact ⟨rfl, rfl⟩
  · intro h req now
    exact ⟨rfl, rfl⟩
  · intro pb h req now
    exact ⟨rfl, rfl⟩

/-! ## convertProtoStatus -/

/-- The eleven internal statuses the `switch` can return are eleven different strings, none of
them "UNKNOWN". -/
theorem named_statuses_nodup :
    (StatusUnknown :: [StatusIdle, StatusAssigned, StatusMovingToPickup, StatusAtPickup,
      StatusMovingToDropoff, StatusAtDropoff, StatusReturning, StatusCharging, StatusOffline,
      StatusError, StatusMaintenance]).Nodup := by
  decide

/-- C12: `convertProtoStatus` is a total function; when the twelve constants of the external
enumeration are different numbers it sends each of the eleven named constants to the internal
status of the same name, is injective on them and never returns Unknown for them, and sends
every other number, the external UNKNOWN included, to Unknown. -/
theorem convertProtoStatus_table (pb : RobotStatusValues) (hd : pb.Distinct) :
    pb.named.map (convertProtoStatus pb) =
      [StatusIdle, StatusAssigned, StatusMovingToPickup, StatusAtPickup, StatusMovingToDropoff,
       StatusAtDropoff, StatusReturning, StatusCharging, StatusOffline, StatusError,
       StatusMaintenance] ∧
    (∀ a ∈ pb.named, ∀ b ∈ pb.named,
      convertProtoStatus pb a = convertProtoStatus pb b → a = b) ∧
    (∀ a ∈ pb.named, convertProtoStatus pb a ≠ StatusUnknown) ∧
    (∀ v, v ∉ pb.named → convertProtoStatus pb v = StatusUnknown) ∧
    convertProtoStatus pb pb.UNKNOWN = StatusUnknown := by
  have hd2 := hd
  simp only [RobotStatusValues.Distinct, RobotStatusValues.named, List.nodup_cons,
    List.mem_cons, List.mem_singleton, not_or, List.not_mem_nil, not_false_eq_true,
    List.nodup_nil, and_true] at hd2
  obtain ⟨h0, h1, h2, h3, h4, h5, h6, h7, h8, h9, h10⟩ := hd2
  have htab : pb.named.map (convertProtoStatus pb) =
      [StatusIdle, StatusAssigned, StatusMovingToPickup, StatusAtPickup, StatusMovingToDropoff,
       StatusAtDropoff, StatusReturning, StatusCharging, StatusOffline, StatusError,
       StatusMaintenance] := by
    simp only [RobotStatusValues.named, List.map_cons, List.map_nil, convertProtoStatus]
    simp [Ne.symm h1.1, Ne.symm h1.2.1, Ne.symm h1.2.2.1, Ne.symm h1.2.2.2.1,
      Ne.symm h1.2.2.2.2.1, Ne.symm h1.2.2.2.2.2.1, Ne.symm h1.2.2.2.2.2.2.1,
      Ne.symm h1.2.2.2.2.2.2.2.1, Ne.symm h1.2.2.2.2.2.2.2.2.1, Ne.symm h1.2.2.2.2.2.2.2.2.2,
      Ne.symm h2.1, Ne.symm h2.2.1, Ne.symm h2.2.2.1, Ne.symm h2.2.2.2.1, Ne.symm h2.2.2.2.2.1,
      Ne.symm h2.2.2.2.2.2.1, Ne.symm h2.2.2.2.2.2.2.1, Ne.symm h2.2.2.2.2.2.2.2.1,
      Ne.symm h2.2.2.2.2.2.2.2.2,
      Ne.symm h3.1, Ne.symm h3.2.1, Ne.symm h3.2.2.1, Ne.symm h3.2.2.2.1, Ne.symm h3.2.2.2.2.1,
      Ne.symm h3.2.2.2.2.2.1, Ne.symm h3.2.2.2.2.2.2.1, Ne.symm h3.2.2.2.2.2.2.2,
      Ne.symm h4.1, Ne.symm h4.2.1, Ne.symm h4.2.2.1, Ne.symm h4.2.2.2.1, Ne.symm h4.2.2.2.2.1,
      Ne.symm h4.2.2.2.2.2.1, Ne.symm h4.2.2.2.2.2.2,
      Ne.symm h5.1, Ne.symm h5.2.1, Ne.symm h5.2.2.1, Ne.symm h5.2.2.2.1, Ne.symm h5.2.2.2.2.1,
      Ne.symm h5.2.2.2.2.2,
      Ne.symm h6.1, Ne.symm h6.2.1, Ne.symm h6.2.2.1, Ne.symm h6.2.2.2.1, Ne.symm h6.2.2.2.2,
      Ne.symm h7.1, Ne.symm h7.2.1, Ne.symm h7.2.2.1, Ne.symm h7.2.2.2,
      Ne.symm h8.1, Ne.symm h8.2.1, Ne.symm h8.2.2,
      Ne.symm h9.1, Ne.symm h9.2,
      Ne.symm h10]
  have hnd : (pb.named.map (convertProtoStatus pb)).Nodup := by
    rw [htab]
    exact (List.nodup_cons.1 named_statuses_nodup).2
  refine ⟨htab, ?_, ?_, ?_, ?_⟩
  · intro a ha b hb hab
    exact List.inj_on_of_nodup_map hnd ha hb hab
  · intro a ha hu
    have hmem : convertProtoStatus pb a ∈ pb.named.map (convertProtoStatus pb) :=
      List.mem_map_of_mem _ ha
    rw [htab, hu] at hmem
    exact (List.nodup_cons.1 named_statuses_nodup).1 hmem
  · intro v hv
    simp only [RobotStatusValues.named, List.mem_cons, List.mem_singleton, not_or,
      List.not_mem_nil, or_false] at hv
    obtain ⟨v1, v2, v3, v4, v5, v6, v7, v8, v9, v10, v11⟩ := hv
    simp [convertProtoStatus, v1, v2, v3, v4, v5, v6, v7, v8, v9, v10, v11]
  · obtain ⟨u1, u2, u3, u4, u5, u6, u7, u8, u9, u10, u11⟩ := h0
    simp [convertProtoStatus, u1, u2, u3, u4, u5, u6, u7, u8, u9, u10, u11]

/-- Evidence for C12: the numbering 0, 1, …, 11 has twelve different numbers, and under it 9
(OFFLINE) is sent to the internal Offline and 0 and 12 to Unknown. -/
theorem convertProtoStatus_table_witness :
    pbDefault.Distinct ∧
    pbDefault.named.map (convertProtoStatus pbDefault) =
      [StatusIdle, StatusAssigned, StatusMovingToPickup, StatusAtPickup, StatusMovingToDropoff,
       StatusAtDropoff, StatusReturning, StatusCharging, StatusOffline, StatusError,
       StatusMaintenance] ∧
    convertProtoStatus pbDefault 9 = StatusOffline ∧
    convertProtoStatus pbDefault 12 = StatusUnknown ∧
    convertProtoStatus pbDefault 0 = StatusUnknown :=
  have hd : pbDefault.Distinct := by
    simp [RobotStatusValues.Distinct, RobotStatusValues.named, pbDefault]
  ⟨hd, (convertProtoStatus_table pbDefault hd).1, by simp [convertProtoStatus, pbDefault],
    (convertProtoStatus_table pbDefault hd).2.2.2.1 12
      (by simp [RobotStatusValues.named, pbDefault]),
    (convertProtoStatus_table pbDefault hd).2.2.2.2⟩

/-! ## StreamUpdates -/

/-- One turn of the loop: the acknowledgment built is the expected one, and the store
afterwards is the store after the store call of the envelope, if it has one. -/
theorem dispatch_eq (pb : RobotStatusValues) (h : RobotHandler) (t : Turn) :
    dispatch pb h t =
      (t.expectedAck, { stateManager := run h.stateManager (t.storeCall pb).toList }) := by
  unfold dispatch Turn.expectedAck Turn.storeCall
  cases t.update.Update <;> rfl

/-- The loop on a stream whose sends all succeed: every turn adds its expected acknowledgment
and applies its store call, and the loop returns what the end of the stream dictates. -/
theorem streamLoop_clean (pb : RobotStatusValues) (last : Error) (turns : List Turn)
    (h : RobotHandler) (sent : List UpdateAck) (hs : ∀ t ∈ turns, t.send = none) :
    streamLoop pb last h sent turns =
      ((last, sent ++ turns.map Turn.expectedAck),
        { stateManager := run h.stateManager (turns.filterMap (Turn.storeCall pb)) }) := by
  induction turns generalizing h sent with
  | nil => simp [streamLoop, run]
  | cons t turns ih =>
    have ht : t.send = none := hs t (List.mem_cons_self t turns)
    have hrest : ∀ u ∈ turns, u.send = none := fun u hu => hs u (List.mem_cons_of_mem t hu)
    simp only [streamLoop, ht, dispatch_eq]
    rw [ih _ _ hrest]
    cases hc : t.storeCall pb with
    | none => simp [List.filterMap_cons, hc, run]
    | some op => simp [List.filterMap_cons, hc, run]

/-- C13: on a stream that delivers the envelopes of `turns`, accepts every acknowledgment and
then ends cleanly, `StreamUpdates` returns no error and has sent exactly one acknowledgment per
envelope, in receipt order; the i-th one carries the send time and is the refusal
"Unknown update type" exactly when the i-th envelope is of no known variant, and a success
otherwise; the store afterwards is the result of applying, in order, the store call of each
envelope of a known variant. -/
theorem streamUpdates_clean (pb : RobotStatusValues) (h : RobotHandler) (turns : List Turn)
    (hs : ∀ t ∈ turns, t.send = none) :
    (h.StreamUpdates pb turns none).1.1 = none ∧
    (h.StreamUpdates pb turns none).1.2.length = turns.length ∧
    (∀ (i : Nat) (t : Turn), turns[i]? = some t →
      ∃ ack : UpdateAck, (h.StreamUpdates pb turns none).1.2[i]? = some ack ∧
        ack.Timestamp = t.ackNow.UnixMilli ∧
        ((ack.Success = false ∧ ack.Message = "Unknown update type") ↔
          t.update.Update = .unset) ∧
        (t.update.Update ≠ .unset → ack.Success = true)) ∧
    (h.StreamUpdates pb turns none).2.stateManager =
      run h.stateManager (turns.filterMap (Turn.storeCall pb)) := by
  have hres := streamLoop_clean pb none turns h [] hs
  unfold RobotHandler.StreamUpdates
  rw [hres]
  refine ⟨rfl, by simp, ?_, rfl⟩
  intro i t hi
  refine ⟨t.expectedAck, by simp [List.getElem?_map, hi], ?_, ?_, ?_⟩
  · unfold Turn.expectedAck
    cases t.update.Update <;> rfl
  · unfold Turn.expectedAck
    cases t.update.Update <;> simp
  · unfold Turn.expectedAck
    cases t.update.Update <;> simp

/-- Evidence for C13, the streaming scenario of the specification on a new store: the three
acknowledgments are success, refusal "Unknown update type", success, and afterwards "r1" holds
the position (1, 2) and the battery level 77. -/
theorem streamUpdates_clean_witness :
    (∀ t ∈ scenarioTurns, t.send = none) ∧
    ((NewRobotHandler NewManager).StreamUpdates pbDefault scenarioTurns none).1 =
      (none, [ { Success := true, Message := "Position updated successfully",
                 Timestamp := 1002 },
               { Success := false, Message := "Unknown update type", Timestamp := 2002 },
               { Success := true, Message := "Battery updated successfully",
                 Timestamp := 3002 } ]) ∧
    ((NewRobotHandler NewManager).StreamUpdates pbDefault scenarioTurns none).2.stateManager
        = run NewManager (scenarioTurns.filterMap (Turn.storeCall pbDefault)) ∧
    (run NewManager (scenarioTurns.filterMap (Turn.storeCall pbDefault))).robots "r1" = some
      { RobotID := "r1", Status := StatusUnknown,
        Position := { Latitude := ⟨0x3FF0000000000000⟩, Longitude := ⟨0x4000000000000000⟩,
                      Timestamp := UnixMilli 1000 },
        Battery := { Level := ⟨0x429A0000⟩, IsCharging := false, Timestamp := UnixMilli 3000 },
        LastUpdated := UnixMilli 3001, IsOnline := true } :=
  have hs : ∀ t ∈ scenarioTurns, t.send = none := by
    intro t ht
    simp only [scenarioTurns, List.mem_cons, List.mem_singleton, List.not_mem_nil,
      or_false] at ht
    rcases ht with rfl | rfl | rfl <;> rfl
  ⟨hs, by decide,
    (streamUpdates_clean pbDefault (NewRobotHandler NewManager) scenarioTurns hs).2.2.2,
    by simp [scenarioTurns, Turn.storeCall, run, Op.call, UpdatePosition, UpdateBattery,
      NewManager]⟩

/-! ## Re-assignment of an order -/

/-- C14 as stated fails: with robots "r1" and "r2" present and order "o1" assigned to "r1", a
further `AssignOrderToRobot "o1" "r2"` succeeds and the order's `AssignedRobot` becomes "r2". -/
theorem assignedRobot_overwritten : ¬ AssignedRobotFixed := by
  intro h
  have h1 := h
    [ .updatePosition "r1" {} {} {} {} {} {},
      .updatePosition "r2" {} {} {} {} {} {},
      .createOrder "o1" {} {} {} {} {},
      .assignOrderToRobot "o1" "r1" {} {} ]
    "o1" { OrderID := "o1", AssignedRobot := "r1", Status := "assigned" }
    (by simp [run, Op.call, UpdatePosition, CreateOrder, AssignOrderToRobot, NewManager])
    (by decide)
    (.assignOrderToRobot "o1" "r2" {} {})
    { OrderID := "o1", AssignedRobot := "r2", Status := "assigned" }
    (by simp [run, Op.call, UpdatePosition, CreateOrder, AssignOrderToRobot, NewManager])
  exact absurd h1 (by decide)

/-- C14, amended: the record of an existing order `o`, so its `AssignedRobot`, is written only
by a successful `AssignOrderToRobot` for `o`. Every call that is not an `AssignOrderToRobot`
for `o` leaves the record as it is, so does an `AssignOrderToRobot` for `o` that names an absent
robot; and an `AssignOrderToRobot o r` that names a present robot returns no error and sets the
`AssignedRobot` to `r`, whatever it was before. -/
theorem assignedRobot_written_by_assign (m : Manager) (o : String) (order : OrderState)
    (ho : m.orders o = some order) :
    (∀ op : Op, (∀ r n1 n2, op ≠ .assignOrderToRobot o r n1 n2) →
      (op.call m).2.orders o = some order) ∧
    (∀ (r : String) (n1 n2 : Time), m.robots r = none →
      (AssignOrderToRobot m o r n1 n2).2.orders o = some order) ∧
    (∀ (r : String) (n1 n2 : Time) (robot : RobotState), m.robots r = some robot →
      (AssignOrderToRobot m o r n1 n2).1 = none ∧
      ∃ order', (AssignOrderToRobot m o r n1 n2).2.orders o = some order' ∧
        order'.AssignedRobot = r) := by
  refine ⟨?_, ?_, ?_⟩
  · intro op hop
    cases op with
    | updatePosition robotID lat lon heading speed timestamp now => exact ho
    | updateBattery robotID level isCharging timestamp now => exact ho
    | updateStatus robotID status currentOrderID errorMessage timestamp now => exact ho
    | markRobotOffline robotID now =>
      simp only [Op.call, MarkRobotOffline]
      cases h : m.robots robotID <;> exact ho
    | createOrder orderID pickupLat pickupLon dropoffLat dropoffLon now =>
      simp only [Op.call, CreateOrder]
      cases h : m.orders orderID with
      | some old => exact ho
      | none =>
        have hne : o ≠ orderID := by
          intro heq
          rw [heq, h] at ho
          cases ho
        simp only [setOrder_orders_other _ _ _ _ hne]
        exact ho
    | assignOrderToRobot orderID robotID now1 now2 =>
      have hne : o ≠ orderID := by
        intro heq
        exact hop robotID now1 now2 (by rw [heq])
      simp only [Op.call, AssignOrderToRobot]
      cases h : m.orders orderID with
      | none => exact ho
      | some old =>
        cases h2 : m.robots robotID with
        | none => exact ho
        | some robot =>
          simp only [setRobot_orders, setOrder_orders_other _ _ _ _ hne]
          exact ho
  · intro r n1 n2 hr
    simp [AssignOrderToRobot, ho, hr]
  · intro r n1 n2 robot hr
    refine ⟨by simp [AssignOrderToRobot, ho, hr],
      { order with AssignedRobot := r, Status := "assigned", UpdatedAt := n1 }, ?_, rfl⟩
    simp [AssignOrderToRobot, ho, hr]

/-- Evidence for the amended C14: in the store with robots "r1", "r2" and order "o1" assigned to
"r1", an offline mark leaves the order as it is and `AssignOrderToRobot "o1" "r2"` makes "r2"
its `AssignedRobot`. -/
theorem assignedRobot_written_by_assign_witness :
    (run NewManager
      [ .updatePosition "r1" {} {} {} {} {} {},
        .updatePosition "r2" {} {} {} {} {} {},
        .createOrder "o1" {} {} {} {} {},
        .assignOrderToRobot "o1" "r1" {} {} ]).orders "o1" =
      some { OrderID := "o1", AssignedRobot := "r1", Status := "assigned" } ∧
    (MarkRobotOffline (run NewManager
      [ .updatePosition "r1" {} {} {} {} {} {},
        .updatePosition "r2" {} {} {} {} {} {},
        .createOrder "o1" {} {} {} {} {},
        .assignOrderToRobot "o1" "r1" {} {} ]) "r1" {}).2.orders "o1" =
      some { OrderID := "o1", AssignedRobot := "r1", Status := "assigned" } ∧
    ∃ order', (AssignOrderToRobot (run NewManager
      [ .updatePosition "r1" {} {} {} {} {} {},
        .updatePosition "r2" {} {} {} {} {} {},
        .createOrder "o1" {} {} {} {} {},
        .assignOrderToRobot "o1" "r1" {} {} ]) "o1" "r2" {} {}).2.orders "o1" = some order' ∧
      order'.AssignedRobot = "r2" :=
  have ho : (run NewManager
      [ .updatePosition "r1" {} {} {} {} {} {},
        .updatePosition "r2" {} {} {} {} {} {},
        .createOrder "o1" {} {} {} {} {},
        .assignOrderToRobot "o1" "r1" {} {} ]).orders "o1" =
      some { OrderID := "o1", AssignedRobot := "r1", Status := "assigned" } := by
    simp [run, Op.call, UpdatePosition, CreateOrder, AssignOrderToRobot, NewManager]
  have h := assignedRobot_written_by_assign _ "o1" _ ho
  ⟨ho, h.1 (.markRobotOffline "r1" {}) (fun _ _ _ hc => by cases hc),
    (h.2.2 "r2" {} {} { RobotID := "r2", Status := StatusUnknown, IsOnline := true }
      (by simp [run, Op.call, UpdatePosition, CreateOrder, AssignOrderToRobot, NewManager,
        Manager.setRobot, Manager.setOrder])).2⟩

/-! ## The observation timestamp of a status report -/

/-- C20: the observation timestamp of a status report is not stored: for every store, robot
id, status, order id, error message and ingestion time, `UpdateStatus` with timestamp `t` and
with timestamp `t'` return the same error and the same store; and the unary handler answers two
requests that differ only in `Timestamp` alike and leaves the same store. -/
theorem updateStatus_ignores_timestamp (m : Manager) (id : String) (s : RobotStatus)
    (o e : String) (now t t' : Time) :
    UpdateStatus m id s o e t now = UpdateStatus m id s o e t' now ∧
    (∀ (pb : RobotStatusValues) (h : RobotHandler) (req : StatusUpdate) (ms : Int),
      (RobotHandler.UpdateStatus pb h { req with Timestamp := ms } now).1 =
        (RobotHandler.UpdateStatus pb h req now).1 ∧
      (RobotHandler.UpdateStatus pb h { req with Timestamp := ms } now).2.stateManager =
        (RobotHandler.UpdateStatus pb h req now).2.stateManager) := by
  refine ⟨rfl, ?_⟩
  intro pb h req ms
  exact ⟨rfl, rfl⟩

/-! ## Repeated and successive updates -/

/-- Writing a robot record twice at one key is writing the second record. -/
theorem setRobot_setRobot (m : Manager) (k : String) (v w : RobotState) :
    (m.setRobot k v).setRobot k w = m.setRobot k w := by
  simp [Manager.setRobot]

/-- Two stores with the same orders whose robot registries agree away from `k` and hold at `k`
records equal up to `LastUpdated` are the same up to `LastUpdated`. -/
theorem sameModLastUpdated_setRobot (m : Manager) (k : String) (v w : RobotState)
    (h : { v with LastUpdated := {} } = { w with LastUpdated := {} }) :
    (m.setRobot k v).SameModLastUpdated (m.setRobot k w) := by
  refine ⟨rfl, ?_⟩
  intro j
  by_cases hj : j = k
  · subst hj
    simp only [setRobot_robots_same, Option.map_some']
    exact congrArg some h
  · simp only [setRobot_robots_other _ _ _ _ hj]

/-- C15: applying one `UpdatePosition` call twice in a row, at ingestion times `now1` then
`now2`, returns what one application at `now2` returns and leaves the very store that one
application at `now2` leaves, which is the store of one application at `now1` up to the
`LastUpdated` of the robot records; likewise for `UpdateBattery` and `UpdateStatus`. -/
theorem update_twice (m : Manager) (id : String) (now1 now2 : Time) :
    (∀ (lat lon heading speed : Float64) (ts : Time),
      UpdatePosition (UpdatePosition m id lat lon heading speed ts now1).2 id lat lon heading
          speed ts now2 = UpdatePosition m id lat lon heading speed ts now2 ∧
      (UpdatePosition (UpdatePosition m id lat lon heading speed ts now1).2 id lat lon heading
          speed ts now2).2.SameModLastUpdated
        (UpdatePosition m id lat lon heading speed ts now1).2) ∧
    (∀ (level : Float32) (isCharging : Bool) (ts : Time),
      UpdateBattery (UpdateBattery m id level isCharging ts now1).2 id level isCharging ts now2 =
        UpdateBattery m id level isCharging ts now2 ∧
      (UpdateBattery (UpdateBattery m id level isCharging ts now1).2 id level isCharging ts
          now2).2.SameModLastUpdated (UpdateBattery m id level isCharging ts now1).2) ∧
    (∀ (s : RobotStatus) (o e : String) (ts : Time),
      UpdateStatus (UpdateStatus m id s o e ts now1).2 id s o e ts now2 =
        UpdateStatus m id s o e ts now2 ∧
      (UpdateStatus (UpdateStatus m id s o e ts now1).2 id s o e ts now2).2.SameModLastUpdated
        (UpdateStatus m id s o e ts now1).2) := by
  refine ⟨?_, ?_, ?_⟩
  · intro lat lon heading speed ts
    have h1 : UpdatePosition (UpdatePosition m id lat lon heading speed ts now1).2 id lat lon
        heading speed ts now2 = UpdatePosition m id lat lon heading speed ts now2 := by
      simp only [UpdatePosition, setRobot_robots_same, setRobot_setRobot]
    refine ⟨h1, ?_⟩
    rw [h1]
    exact sameModLastUpdated_setRobot m id _ _ rfl
  · intro level isCharging ts
    have h1 : UpdateBattery (UpdateBattery m id level isCharging ts now1).2 id level isCharging
        ts now2 = UpdateBattery m id level isCharging ts now2 := by
      simp only [UpdateBattery, setRobot_robots_same, setRobot_setRobot]
    refine ⟨h1, ?_⟩
    rw [h1]
    exact sameModLastUpdated_setRobot m id _ _ rfl
  · intro s o e ts
    have h1 : UpdateStatus (UpdateStatus m id s o e ts now1).2 id s o e ts now2 =
        UpdateStatus m id s o e ts now2 := by
      simp only [UpdateStatus, setRobot_robots_same, setRobot_setRobot]
    refine ⟨h1, ?_⟩
    rw [h1]
    exact sameModLastUpdated_setRobot m id _ _ rfl

/-- C16: after two position updates for one robot, applied in the order `p1` then `p2`,
`GetRobotState` returns without error a record whose `Position` is `p2` with the observation
timestamp of `p2`, whatever the two observation timestamps are (so also when that of `p2` is
the earlier one); and after two battery updates the `Battery` is the second one. -/
theorem last_write_wins (m : Manager) (id : String) :
    (∀ (lat1 lon1 heading1 speed1 : Float64) (ts1 now1 : Time)
        (lat2 lon2 heading2 speed2 : Float64) (ts2 now2 : Time),
      ∃ robot, (GetRobotState (UpdatePosition (UpdatePosition m id lat1 lon1 heading1 speed1 ts1
          now1).2 id lat2 lon2 heading2 speed2 ts2 now2).2 id).1 = (some robot, none) ∧
        robot.Position = { Latitude := lat2, Longitude := lon2, Heading := heading2,
                           Speed := speed2, Timestamp := ts2 }) ∧
    (∀ (level1 : Float32) (isCharging1 : Bool) (ts1 now1 : Time)
        (level2 : Float32) (isCharging2 : Bool) (ts2 now2 : Time),
      ∃ robot, (GetRobotState (UpdateBattery (UpdateBattery m id level1 isCharging1 ts1
          now1).2 id level2 isCharging2 ts2 now2).2 id).1 = (some robot, none) ∧
        robot.Battery = { Level := level2, IsCharging := isCharging2, Timestamp := ts2 }) := by
  refine ⟨?_, ?_⟩
  · intro lat1 lon1 heading1 speed1 ts1 now1 lat2 lon2 heading2 speed2 ts2 now2
    have hp : ∀ s : Manager, ∃ robot,
        (GetRobotState (UpdatePosition s id lat2 lon2 heading2 speed2 ts2 now2).2 id).1 =
          (some robot, none) ∧
        robot.Position = { Latitude := lat2, Longitude := lon2, Heading := heading2,
                           Speed := speed2, Timestamp := ts2 } := by
      intro s
      cases hs : s.robots id with
      | none =>
        exact ⟨{ RobotID := id, Status := StatusUnknown,
                 Position := { Latitude := lat2, Longitude := lon2, Heading := heading2,
                               Speed := speed2, Timestamp := ts2 },
                 LastUpdated := now2, IsOnline := true },
          by simp only [UpdatePosition, GetRobotState, hs, setRobot_robots_same], rfl⟩
      | some robot =>
        exact ⟨{ robot with
                   Position := { Latitude := lat2, Longitude := lon2, Heading := heading2,
                                 Speed := speed2, Timestamp := ts2 },
                   LastUpdated := now2, IsOnline := true },
          by simp only [UpdatePosition, GetRobotState, hs, setRobot_robots_same], rfl⟩
    exact hp _
  · intro level1 isCharging1 ts1 now1 level2 isCharging2 ts2 now2
    have hb : ∀ s : Manager, ∃ robot,
        (GetRobotState (UpdateBattery s id level2 isCharging2 ts2 now2).2 id).1 =
          (some robot, none) ∧
        robot.Battery = { Level := level2, IsCharging := isCharging2, Timestamp := ts2 } := by
      intro s
      cases hs : s.robots id with
      | none =>
        exact ⟨{ RobotID := id, Status := StatusUnknown,
                 Battery := { Level := level2, IsCharging := isCharging2, Timestamp := ts2 },
                 LastUpdated := now2, IsOnline := true },
          by simp only [UpdateBattery, GetRobotState, hs, setRobot_robots_same], rfl⟩
      | some robot =>
        exact ⟨{ robot with
                   Battery := { Level := level2, IsCharging := isCharging2, Timestamp := ts2 },
                   LastUpdated := now2, IsOnline := true },
          by simp only [UpdateBattery, GetRobotState, hs, setRobot_robots_same], rfl⟩
    exact hb _

/-! ## Referential integrity -/

/-- Writing at key `r` a robot record that carries `r` as its id keeps the integrity. -/
theorem integrity_setRobot (m : Manager) (r : String) (new : RobotState) (hi : Integrity m)
    (hid : new.RobotID = r) : Integrity (m.setRobot r new) := by
  obtain ⟨ho, hr⟩ := hi
  refine ⟨?_, ?_⟩
  · intro o order h
    obtain ⟨h1, h2, h3, h4⟩ := ho o order h
    refine ⟨h1, h2, ?_, h4⟩
    intro hs
    by_cases hk : order.AssignedRobot = r
    · rw [hk, setRobot_robots_same]
      exact Option.some_ne_none new
    · rw [setRobot_robots_other m r _ new hk]
      exact h3 hs
  · intro k robot h
    by_cases hk : k = r
    · subst hk
      rw [setRobot_robots_same] at h
      cases h
      exact hid
    · rw [setRobot_robots_other m r k new hk] at h
      exact hr k robot h

/-- Writing at key `o` an order record that carries `o` as its id, is pending without robot or
assigned to a present robot, keeps the integrity. -/
theorem integrity_setOrder (m : Manager) (o : String) (new : OrderState) (hi : Integrity m)
    (hid : new.OrderID = o) (hst : new.Status = "pending" ∨ new.Status = "assigned")
    (hpend : new.Status = "pending" → new.AssignedRobot = "")
    (hasg : new.Status = "assigned" → m.robots new.AssignedRobot ≠ none) :
    Integrity (m.setOrder o new) := by
  obtain ⟨ho, hr⟩ := hi
  refine ⟨?_, hr⟩
  intro k order h
  by_cases hk : k = o
  · subst hk
    rw [setOrder_orders_same] at h
    cases h
    exact ⟨hst, hpend, hasg, hid⟩
  · rw [setOrder_orders_other m o k new hk] at h
    exact ho k order h

/-- One call keeps the integrity. -/
theorem integrity_call (m : Manager) (op : Op) (hi : Integrity m) : Integrity (op.call m).2 := by
  cases op with
  | updatePosition robotID lat lon heading speed timestamp now =>
    apply integrity_setRobot m robotID _ hi
    cases h : m.robots robotID with
    | none => rfl
    | some robot => exact hi.2 robotID robot h
  | updateBattery robotID level isCharging timestamp now =>
    apply integrity_setRobot m robotID _ hi
    cases h : m.robots robotID with
    | none => rfl
    | some robot => exact hi.2 robotID robot h
  | updateStatus robotID status currentOrderID errorMessage timestamp now =>
    apply integrity_setRobot m robotID _ hi
    cases h : m.robots robotID with
    | none => rfl
    | some robot => exact hi.2 robotID robot h
  | markRobotOffline robotID now =>
    simp only [Op.call, MarkRobotOffline]
    cases h : m.robots robotID with
    | none => exact hi
    | some robot => exact integrity_setRobot m robotID _ hi (hi.2 robotID robot h)
  | createOrder orderID pickupLat pickupLon dropoffLat dropoffLon now =>
    simp only [Op.call, CreateOrder]
    cases h : m.orders orderID with
    | some order => exact hi
    | none =>
      exact integrity_setOrder m orderID _ hi rfl (Or.inl rfl) (fun _ => rfl)
        (fun hs => absurd (show ("pending" : String) = "assigned" from hs) (by decide))
  | assignOrderToRobot orderID robotID now1 now2 =>
    simp only [Op.call, AssignOrderToRobot]
    cases h : m.orders orderID with
    | none => exact hi
    | some order =>
      cases h2 : m.robots robotID with
      | none => exact hi
      | some robot =>
        dsimp only
        refine integrity_setRobot _ robotID _ ?_ ?_
        · refine integrity_setOrder m orderID _ hi ?_ (Or.inr rfl) ?_ ?_
          · exact (hi.1 orderID order h).2.2.2
          · intro hs
            exact absurd (show ("assigned" : String) = "pending" from hs) (by decide)
          · intro _
            rw [h2]
            exact Option.some_ne_none robot
        · exact hi.2 robotID robot h2

/-- A sequence of calls keeps the integrity. -/
theorem integrity_run (ops : List Op) (m : Manager) (hi : Integrity m) :
    Integrity (run m ops) := by
  induction ops generalizing m with
  | nil => exact hi
  | cons op ops ih => exact ih (op.call m).2 (integrity_call m op hi)

/-- One call removes neither a robot nor an order. -/
theorem call_keeps_keys (m : Manager) (op : Op) :
    (∀ k, m.robots k ≠ none → (op.call m).2.robots k ≠ none) ∧
    (∀ k, m.orders k ≠ none → (op.call m).2.orders k ≠ none) := by
  have hrob : ∀ (s : Manager) (r : String) (v : RobotState) (k : String),
      s.robots k ≠ none → (s.setRobot r v).robots k ≠ none := by
    intro s r v k hk
    by_cases hkr : k = r
    · subst hkr
      rw [setRobot_robots_same]
      exact Option.some_ne_none v
    · rw [setRobot_robots_other s r k v hkr]
      exact hk
  have hord : ∀ (s : Manager) (o : String) (v : OrderState) (k : String),
      s.orders k ≠ none → (s.setOrder o v).orders k ≠ none := by
    intro s o v k hk
    by_cases hko : k = o
    · subst hko
      rw [setOrder_orders_same]
      exact Option.some_ne_none v
    · rw [setOrder_orders_other s o k v hko]
      exact hk
  cases op with
  | updatePosition robotID lat lon heading speed timestamp now =>
    exact ⟨fun k hk => hrob m robotID _ k hk, fun k hk => hk⟩
  | updateBattery robotID level isCharging timestamp now =>
    exact ⟨fun k hk => hrob m robotID _ k hk, fun k hk => hk⟩
  | updateStatus robotID status currentOrderID errorMessage timestamp now =>
    exact ⟨fun k hk => hrob m robotID _ k hk, fun k hk => hk⟩
  | markRobotOffline robotID now =>
    simp only [Op.call, MarkRobotOffline]
    cases h : m.robots robotID with
    | none => exact ⟨fun k hk => hk, fun k hk => hk⟩
    | some robot => exact ⟨fun k hk => hrob m robotID _ k hk, fun k hk => hk⟩
  | createOrder orderID pickupLat pickupLon dropoffLat dropoffLon now =>
    simp only [Op.call, CreateOrder]
    cases h : m.orders orderID with
    | some order => exact ⟨fun k hk => hk, fun k hk => hk⟩
    | none => exact ⟨fun k hk => hk, fun k hk => hord m orderID _ k hk⟩
  | assignOrderToRobot orderID robotID now1 now2 =>
    simp only [Op.call, AssignOrderToRobot]
    cases h : m.orders orderID with
    | none => exact ⟨fun k hk => hk, fun k hk => hk⟩
    | some order =>
      cases h2 : m.robots robotID with
      | none => exact ⟨fun k hk => hk, fun k hk => hk⟩
      | some robot =>
        exact ⟨fun k hk => hrob _ robotID _ k hk, fun k hk => hord m orderID _ k hk⟩

/-- C18: in every store reached from the empty store by a sequence of calls, every order is
"pending" or "assigned", a pending order has an empty `AssignedRobot`, an assigned order names
a robot that the robot registry holds, and every key is the `OrderID` or `RobotID` of its
record; and no call, on any store, removes a robot or an order. -/
theorem integrity_reachable (ops : List Op) :
    Integrity (run NewManager ops) ∧
    (∀ (m : Manager) (op : Op),
      (∀ k, m.robots k ≠ none → (op.call m).2.robots k ≠ none) ∧
      (∀ k, m.orders k ≠ none → (op.call m).2.orders k ≠ none)) := by
  refine ⟨integrity_run ops NewManager ?_, call_keeps_keys⟩
  refine ⟨?_, ?_⟩
  · intro o order h
    cases h
  · intro r robot h
    cases h

/-! ## Updates for different robots -/

/-- An update call for robot `r` reads the store only at the record of `r` and writes it only
there: what it returns and what it writes is a function of that record. -/
theorem robotOp_local (op : Op) (r : String) (h : op.robotOf = some r) :
    ∃ F : Option RobotState → Error × Option RobotState,
      ∀ m : Manager, op.call m =
        ((F (m.robots r)).1, (match (F (m.robots r)).2 with
          | some robot => m.setRobot r robot
          | none => m)) := by
  cases op with
  | updatePosition robotID lat lon heading speed timestamp now =>
    simp only [Op.robotOf, Option.some.injEq] at h
    subst h
    refine ⟨fun x => (none, some { (match x with
        | some robot => robot
        | none => { RobotID := robotID, Status := StatusUnknown, IsOnline := true }) with
        Position := { Latitude := lat, Longitude := lon, Heading := heading, Speed := speed,
                      Timestamp := timestamp },
        LastUpdated := now, IsOnline := true }), ?_⟩
    intro m
    rfl
  | updateBattery robotID level isCharging timestamp now =>
    simp only [Op.robotOf, Option.some.injEq] at h
    subst h
    refine ⟨fun x => (none, some { (match x with
        | some robot => robot
        | none => { RobotID := robotID, Status := StatusUnknown, IsOnline := true }) with
        Battery := { Level := level, IsCharging := isCharging, Timestamp := timestamp },
        LastUpdated := now, IsOnline := true }), ?_⟩
    intro m
    rfl
  | updateStatus robotID status currentOrderID errorMessage timestamp now =>
    simp only [Op.robotOf, Option.some.injEq] at h
    subst h
    refine ⟨fun x => (none, some { (match x with
        | some robot => robot
        | none => { RobotID := robotID, IsOnline := true }) with
        Status := status, CurrentOrderID := currentOrderID, ErrorMessage := errorMessage,
        LastUpdated := now, IsOnline := true }), ?_⟩
    intro m
    rfl
  | markRobotOffline robotID now =>
    simp only [Op.robotOf, Option.some.injEq] at h
    subst h
    refine ⟨fun x => match x with
      | none => (some ("robot " ++ robotID ++ " not found"), none)
      | some robot => (none, some { robot with IsOnline := false, Status := StatusOffline,
                                               LastUpdated := now }), ?_⟩
    intro m
    simp only [Op.call, MarkRobotOffline]
    cases hm : m.robots robotID <;> rfl
  | createOrder orderID pickupLat pickupLon dropoffLat dropoffLon now =>
    simp [Op.robotOf] at h
  | assignOrderToRobot orderID robotID now1 now2 =>
    simp [Op.robotOf] at h

/-- Writes at two different robot keys can be swapped. -/
theorem setRobot_comm (m : Manager) (r1 r2 : String) (a b : RobotState) (hne : r1 ≠ r2) :
    (m.setRobot r1 a).setRobot r2 b = (m.setRobot r2 b).setRobot r1 a := by
  simp only [Manager.setRobot]
  rw [Function.update_comm hne]

/-- C19: two update calls for different robots commute: when `u1` is an `UpdatePosition`,
`UpdateBattery`, `UpdateStatus` or `MarkRobotOffline` for `r1`, `u2` one for `r2`, and
`r1 ≠ r2`, then `u1` then `u2` leaves the same store as `u2` then `u1`, and each call returns
the same error in both orders. -/
theorem updates_commute (m : Manager) (u1 u2 : Op) (r1 r2 : String)
    (h1 : u1.robotOf = some r1) (h2 : u2.robotOf = some r2) (hne : r1 ≠ r2) :
    (u2.call (u1.call m).2).2 = (u1.call (u2.call m).2).2 ∧
    (u1.call (u2.call m).2).1 = (u1.call m).1 ∧
    (u2.call (u1.call m).2).1 = (u2.call m).1 := by
  obtain ⟨F1, hF1⟩ := robotOp_local u1 r1 h1
  obtain ⟨F2, hF2⟩ := robotOp_local u2 r2 h2
  have hne2 : r2 ≠ r1 := fun h => hne h.symm
  have e1 : (u1.call m).2.robots r2 = m.robots r2 := by
    rw [hF1 m]
    cases (F1 (m.robots r1)).2 with
    | none => rfl
    | some a => exact setRobot_robots_other m r1 r2 a hne2
  have e2 : (u2.call m).2.robots r1 = m.robots r1 := by
    rw [hF2 m]
    cases (F2 (m.robots r2)).2 with
    | none => rfl
    | some b => exact setRobot_robots_other m r2 r1 b hne
  refine ⟨?_, ?_, ?_⟩
  · rw [hF2 (u1.call m).2, hF1 (u2.call m).2, e1, e2, hF1 m, hF2 m]
    cases (F1 (m.robots r1)).2 with
    | none => rfl
    | some a =>
      cases (F2 (m.robots r2)).2 with
      | none => rfl
      | some b => exact setRobot_comm m r1 r2 a b hne
  · rw [hF1 (u2.call m).2, e2, hF1 m]
  · rw [hF2 (u1.call m).2, e1, hF2 m]

/-- Evidence for C19: a status report for "r1" and an offline mark for "r2" are update calls
for different robots, and on the store that knows only "r2" they commute. -/
theorem updates_commute_witness :
    (Op.updateStatus "r1" StatusIdle "" "" {} {}).robotOf = some "r1" ∧
    (Op.markRobotOffline "r2" {}).robotOf = some "r2" ∧
    ((Op.markRobotOffline "r2" {}).call ((Op.updateStatus "r1" StatusIdle "" "" {} {}).call
        (UpdateBattery NewManager "r2" {} false {} {}).2).2).2 =
      ((Op.updateStatus "r1" StatusIdle "" "" {} {}).call ((Op.markRobotOffline "r2" {}).call
        (UpdateBattery NewManager "r2" {} false {} {}).2).2).2 :=
  ⟨rfl, rfl,
    (updates_commute (UpdateBattery NewManager "r2" {} false {} {}).2
      (.updateStatus "r1" StatusIdle "" "" {} {}) (.markRobotOffline "r2" {}) "r1" "r2"
      rfl rfl (by decide)).1⟩

end State
